import Mathlib

/-!
Verification development for the reward-computation engine of this repository
(`environments/omit_description/reward/reward.py`,
`environments/omit_description/reward/shown_style_rewards.py`,
`execution/server.py`).

Strings are modelled as `List Char`, mirroring Python's character-wise string
semantics.  Python's `needle in haystack`, `str.split`, `str.startswith`,
`str.endswith`, slicing and negative indexing are given executable
translations below.  External collaborators (the CPython `ast` parser, the
HTTP sandbox, the HuggingFace tokenizer, `exec` of developer-supplied
evaluation scripts, `json.loads`) are modelled as oracle parameters collected
in an `Env` structure: every claim quantifies over all possible behaviours of
those collaborators.
-/

namespace RewardSpec

/-! ## Definitions -/

/-- Python `haystack.startswith(pat)` on character lists. -/
def startsWithL : List Char → List Char → Bool
  | _, [] => true
  | [], _ :: _ => false
  | a :: t1, b :: t2 => a == b && startsWithL t1 t2

/-- Python `pat in haystack` (substring containment) on character lists. -/
def containsL : List Char → List Char → Bool
  | [], pat => pat.isEmpty
  | s@(_ :: t), pat => startsWithL s pat || containsL t pat

/-- Python `haystack.endswith(pat)` on character lists. -/
def endsWithL (s pat : List Char) : Bool :=
  startsWithL s.reverse pat.reverse

/-- Helper for `splitOnL`; `acc` is the current chunk, reversed.  The fuel is
always at least `s.length + 1`, which the scan can never exhaust. -/
def splitAux (pat : List Char) : Nat → List Char → List Char → List (List Char)
  | 0, acc, s => [acc.reverse ++ s]
  | fuel + 1, acc, s =>
    if startsWithL s pat then
      acc.reverse :: splitAux pat fuel [] (s.drop pat.length)
    else
      match s with
      | [] => [acc.reverse]
      | c :: t => splitAux pat fuel (c :: acc) t

/-- Python `s.split(pat)` for non-empty `pat` (leftmost, non-overlapping).
Python raises on an empty separator; all separators used by the code are
non-empty, and we return `[s]` in that degenerate case. -/
def splitOnL (pat s : List Char) : List (List Char) :=
  if pat.isEmpty then [s] else splitAux pat (s.length + 1) [] s

/-- Python `lst[-1]` on a split result (negative index `-1` is `len - 1`). -/
def lastPiece (ps : List (List Char)) : List Char :=
  ps.getD (ps.length - 1) []

/-! ### Extraction Protocol (`extract_answer`, identical in `reward.py` and
`shown_style_rewards.py`) -/

def eotC : List Char := ("</think>").data

def sotC : List Char := ("<think>").data

def ansOpenC : List Char := ("<answer>").data

def ansCloseC : List Char := ("</answer>").data

def pyFenceOpen : List Char := ("```python\n").data

def pyFenceClose : List Char := ("\n```").data

def answerEqC : List Char := ("answer=").data

/-- The `</think>`-stripping step:
`if eot in response: response = response.split(eot)[-1]`. -/
def postThink (resp : List Char) : List Char :=
  if containsL resp eotC then lastPiece (splitOnL eotC resp) else resp

/-- The retreat loop of `extract_answer`: starting from segment index `j`
(with current segment `cur`), walk to earlier split segments until one
contains `sfx` or index 0 has been examined. -/
def retreat (parts : List (List Char)) (sfx : List Char) : Nat → List Char → List Char
  | j, cur =>
    if containsL cur sfx then cur
    else
      match j with
      | 0 => cur
      | j' + 1 => retreat parts sfx j' (parts.getD j' [])

/-- The segment the retreat loop settles on: starting from
`response.split(prefix)[-1]`, walking towards `response.split(prefix)[0]`. -/
def chosenSeg (resp pfx sfx : List Char) : List Char :=
  retreat (splitOnL pfx (postThink resp)) sfx
    ((splitOnL pfx (postThink resp)).length - 1)
    (lastPiece (splitOnL pfx (postThink resp)))

/-- The success post-processing of `extract_answer`: strip a literal
`answer=`, then prefer a fenced code-block interior when present. -/
def postProcess (seg sfx : List Char) : List Char :=
  if containsL (if seg.take 7 = answerEqC then seg.drop 7 else seg) pyFenceOpen then
    (splitOnL pyFenceClose
      (lastPiece (splitOnL pyFenceOpen
        (if seg.take 7 = answerEqC then seg.drop 7 else seg)))).getD 0 []
  else
    (splitOnL sfx (if seg.take 7 = answerEqC then seg.drop 7 else seg)).getD 0 []

/-- `extract_answer(response, prefix="<answer>", suffix="</answer>")`,
translated clause by clause from the source (identical in `reward.py` and
`shown_style_rewards.py`). -/
def extract_answer (resp pfx sfx : List Char) : Option (List Char) :=
  if ¬ containsL (postThink resp) pfx then none
  else if ¬ containsL (chosenSeg resp pfx sfx) sfx then none
  else some (postProcess (chosenSeg resp pfx sfx) sfx)

/-! ### A small backtracking regular-expression engine

Implements exactly the fragment of Python `re` used by the reward code:
character classes, alternation, greedy and lazy star, optional groups,
anchors with and without `re.MULTILINE`, `.` with and without `re.DOTALL`,
word boundaries, lookahead, single-character negative lookbehind,
`re.findall` counting (leftmost, non-overlapping), `re.search`, `re.match`
and `re.sub` with an empty replacement.  All scans are fuel-bounded with
generous fuel; the fuel can not run out on the pattern/input sizes involved,
and no theorem below depends on the value any regex count takes. -/

inductive Re where
  | eps
  | sym (p : Char → Bool)
  | cat (a b : Re)
  | alt (a b : Re)
  | star (greedy : Bool) (a : Re)
  | look (a : Re)
  | wordB
  | prevNot (p : Char → Bool)
  | lineA (multiline : Bool)
  | lineZ (multiline : Bool)

def isWordC (c : Char) : Bool := c.isAlpha || c.isDigit || c == '_'

def isIdentStart (c : Char) : Bool := c.isAlpha || c == '_'

/-- Python `\s` (ASCII): space, tab, newline, carriage return, form feed,
vertical tab. -/
def isSpC (c : Char) : Bool :=
  c == ' ' || c == '\t' || c == '\n' || c == '\x0d' || c == '\x0b' || c == '\x0c'

def isWordO : Option Char → Bool
  | some c => isWordC c
  | none => false

def isWordHead : List Char → Bool
  | [] => false
  | c :: _ => isWordC c

/-- Backtracking matcher in continuation style.  State is the previous
character (for `^`, `\b`, lookbehind) and the remaining input; the
continuation receives the state after the piece has matched.  Priority of
alternatives follows Python's leftmost/greedy rules. -/
def Re.mtch : Nat → Re → Option Char → List Char →
    (Option Char → List Char → Option (List Char)) → Option (List Char)
  | 0, _, _, _, _ => none
  | _ + 1, .eps, pv, s, k => k pv s
  | _ + 1, .sym p, _, s, k =>
    match s with
    | [] => none
    | c :: t => if p c then k (some c) t else none
  | fuel + 1, .cat a b, pv, s, k =>
    Re.mtch fuel a pv s (fun pv2 s2 => Re.mtch fuel b pv2 s2 k)
  | fuel + 1, .alt a b, pv, s, k =>
    match Re.mtch fuel a pv s k with
    | some r => some r
    | none => Re.mtch fuel b pv s k
  | fuel + 1, .star true a, pv, s, k =>
    match Re.mtch fuel a pv s (fun pv2 s2 => Re.mtch fuel (.star true a) pv2 s2 k) with
    | some r => some r
    | none => k pv s
  | fuel + 1, .star false a, pv, s, k =>
    match k pv s with
    | some r => some r
    | none => Re.mtch fuel a pv s (fun pv2 s2 => Re.mtch fuel (.star false a) pv2 s2 k)
  | fuel + 1, .look a, pv, s, k =>
    match Re.mtch fuel a pv s (fun _ s2 => some s2) with
    | some _ => k pv s
    | none => none
  | _ + 1, .wordB, pv, s, k =>
    if isWordO pv != isWordHead s then k pv s else none
  | _ + 1, .prevNot p, pv, s, k =>
    match pv with
    | some c => if p c then none else k pv s
    | none => k pv s
  | _ + 1, .lineA m, pv, s, k =>
    match pv with
    | none => k pv s
    | some c => if m && c == '\n' then k pv s else none
  | _ + 1, .lineZ m, pv, s, k =>
    match s with
    | [] => k pv s
    | c :: t => if c == '\n' && (m || t.isEmpty) then k pv s else none

def Re.lit1 (c : Char) : Re := .sym (fun d => d == c)

def Re.strRe (s : String) : Re := s.data.foldr (fun c r => .cat (.lit1 c) r) .eps

def Re.seq (l : List Re) : Re := l.foldr .cat .eps

def Re.optRe (a : Re) : Re := .alt a .eps

def Re.plus (a : Re) : Re := .cat a (.star true a)

def Re.never : Re := .sym (fun _ => false)

def Re.altList (l : List Re) : Re := l.foldr .alt Re.never

def Re.wsStar : Re := .star true (.sym isSpC)

def Re.wsPlus : Re := Re.plus (.sym isSpC)

def Re.wordStar : Re := .star true (.sym isWordC)

def Re.anyNoNl : Re := .sym (fun c => !(c == '\n'))

def Re.anyC : Re := .sym (fun _ => true)

def Re.cls (l : List Char) : Re := .sym (fun c => l.contains c)

def Re.ncls (l : List Char) : Re := .sym (fun c => !(l.contains c))

/-- `{0,n}` greedy repetition. -/
def Re.upTo : Nat → Re → Re
  | 0, _ => .eps
  | n + 1, r => .alt (.cat r (Re.upTo n r)) .eps

/-- Fuel that the matcher can not exhaust on this development's patterns. -/
def bigFuel (s : List Char) : Nat := (s.length + 2) * 2000

def matchEndAux (r : Re) (fuel : Nat) (pv : Option Char) (s : List Char) :
    Option (List Char) :=
  Re.mtch fuel r pv s (fun _ s2 => some s2)

/-- Scan for `re.findall` counting: leftmost, non-overlapping matches; an
empty match advances one character, as in Python. -/
def goCount (r : Re) : Nat → Option Char → List Char → Nat
  | 0, _, _ => 0
  | fuel + 1, pv, s =>
    match matchEndAux r (bigFuel s) pv s with
    | some rest =>
      if s.length - rest.length == 0 then
        match s with
        | [] => 1
        | c :: t => 1 + goCount r fuel (some c) t
      else
        1 + goCount r fuel ((s.take (s.length - rest.length)).getLast?) rest
    | none =>
      match s with
      | [] => 0
      | c :: t => goCount r fuel (some c) t

/-- `len(re.findall(pattern, s))`. -/
def findAllCount (r : Re) (s : List Char) : Nat := goCount r (s.length + 2) none s

def goSearch (r : Re) : Nat → Option Char → List Char → Bool
  | 0, _, _ => false
  | fuel + 1, pv, s =>
    match matchEndAux r (bigFuel s) pv s with
    | some _ => true
    | none =>
      match s with
      | [] => false
      | c :: t => goSearch r fuel (some c) t

/-- `re.search(pattern, s) is not None`. -/
def reSearch (r : Re) (s : List Char) : Bool := goSearch r (s.length + 2) none s

/-- `re.match(pattern, s) is not None` (anchored at the start). -/
def reMatch (r : Re) (s : List Char) : Bool := (matchEndAux r (bigFuel s) none s).isSome

def goSub (r : Re) : Nat → Option Char → List Char → List Char
  | 0, _, s => s
  | fuel + 1, pv, s =>
    match matchEndAux r (bigFuel s) pv s with
    | some rest =>
      if s.length - rest.length == 0 then
        match s with
        | [] => []
        | c :: t => c :: goSub r fuel (some c) t
      else
        goSub r fuel ((s.take (s.length - rest.length)).getLast?) rest
    | none =>
      match s with
      | [] => []
      | c :: t => c :: goSub r fuel (some c) t

/-- `re.sub(pattern, "", s)`. -/
def reSub (r : Re) (s : List Char) : List Char := goSub r (s.length + 2) none s

/-! ### The regular expressions appearing in the reward code -/

/-- `\b(map|filter)\s*\(` -/
def mapFilterRe : Re :=
  Re.seq [.wordB, .alt (Re.strRe ("map")) (Re.strRe ("filter")), Re.wsStar, .lit1 '(']

/-- `^\s*(?:async\s+)?def\s+[a-zA-Z_]\w*\s*\(` with `re.MULTILINE` -/
def defHeadRe : Re :=
  Re.seq [.lineA true, Re.wsStar, Re.optRe (Re.seq [Re.strRe ("async"), Re.wsPlus]),
    Re.strRe ("def"), Re.wsPlus, .sym isIdentStart, Re.wordStar, Re.wsStar, .lit1 '(']

/-- `^\s*class\s+[a-zA-Z_]\w*\s*(?:\([^)]*\))?\s*:` with `re.MULTILINE` -/
def classHeadRe : Re :=
  Re.seq [.lineA true, Re.wsStar, Re.strRe ("class"), Re.wsPlus, .sym isIdentStart,
    Re.wordStar, Re.wsStar,
    Re.optRe (Re.seq [.lit1 '(', .star true (Re.ncls [')']), .lit1 ')']),
    Re.wsStar, .lit1 ':']

/-- `[\[\{].*\bfor\b.*\bin\b.*[\]\}]` -/
def bracketForInRe : Re :=
  Re.seq [Re.cls ['[', '{'], .star true Re.anyNoNl, .wordB, Re.strRe ("for"), .wordB,
    .star true Re.anyNoNl, .wordB, Re.strRe ("in"), .wordB, .star true Re.anyNoNl,
    Re.cls [']', '}']]

/-- `\([^()]*\bfor\b.*\bin\b[^()]*\)` -/
def parenForInLineRe : Re :=
  Re.seq [.lit1 '(', .star true (Re.ncls ['(', ')']), .wordB, Re.strRe ("for"), .wordB,
    .star true Re.anyNoNl, .wordB, Re.strRe ("in"), .wordB,
    .star true (Re.ncls ['(', ')']), .lit1 ')']

/-- `^\s*(for|while)\s+` -/
def forWhileHeadRe : Re :=
  Re.seq [.lineA false, Re.wsStar, .alt (Re.strRe ("for")) (Re.strRe ("while")), Re.wsPlus]

/-- `\[[^\[\]]*\bfor\b[^\[\]]*\bin\b[^\[\]]*\]` -/
def listCompRe : Re :=
  Re.seq [.lit1 '[', .star true (Re.ncls ['[', ']']), .wordB, Re.strRe ("for"), .wordB,
    .star true (Re.ncls ['[', ']']), .wordB, Re.strRe ("in"), .wordB,
    .star true (Re.ncls ['[', ']']), .lit1 ']']

/-- `\{[^\{\}]*\bfor\b[^\{\}]*\bin\b[^\{\}]*\}` -/
def dictCompRe : Re :=
  Re.seq [.lit1 '{', .star true (Re.ncls ['{', '}']), .wordB, Re.strRe ("for"), .wordB,
    .star true (Re.ncls ['{', '}']), .wordB, Re.strRe ("in"), .wordB,
    .star true (Re.ncls ['{', '}']), .lit1 '}']

/-- `\{[^\{\}:]*\bfor\b[^\{\}:]*\bin\b[^\{\}:]*\}` -/
def setCompRe : Re :=
  Re.seq [.lit1 '{', .star true (Re.ncls ['{', '}', ':']), .wordB, Re.strRe ("for"), .wordB,
    .star true (Re.ncls ['{', '}', ':']), .wordB, Re.strRe ("in"), .wordB,
    .star true (Re.ncls ['{', '}', ':']), .lit1 '}']

/-- `\([^\(\)]*\bfor\b[^\(\)]*\bin\b[^\(\)]*\)` -/
def genExpRe : Re :=
  Re.seq [.lit1 '(', .star true (Re.ncls ['(', ')']), .wordB, Re.strRe ("for"), .wordB,
    .star true (Re.ncls ['(', ')']), .wordB, Re.strRe ("in"), .wordB,
    .star true (Re.ncls ['(', ')']), .lit1 ')']

/-- `from\s+typing\s+import|import\s+typing` -/
def typingImportCoreRe : Re :=
  .alt (Re.seq [Re.strRe ("from"), Re.wsPlus, Re.strRe ("typing"), Re.wsPlus,
      Re.strRe ("import")])
    (Re.seq [Re.strRe ("import"), Re.wsPlus, Re.strRe ("typing")])

/-- `^\s*(?:from\s+typing\s+import|import\s+typing)` (used with `re.match`) -/
def typingImportLineRe : Re :=
  Re.seq [.lineA false, Re.wsStar, typingImportCoreRe]

def complexTypeNames : List String :=
  ["List", "Dict", "Tuple", "Optional", "Union", "Set", "FrozenSet", "Callable",
   "Generic", "Protocol", "TypeVar", "ClassVar", "Final", "Literal", "Any",
   "NoReturn", "Type", "Sequence", "Mapping", "Iterable", "Iterator", "Collection"]

/-- `\b(?:<complex type names>)\b(?:\s*\[|\s*(?=\s*[,\)\n]|$))` -/
def complexTypeRe : Re :=
  Re.seq [.wordB, Re.altList (complexTypeNames.map Re.strRe), .wordB,
    .alt (Re.seq [Re.wsStar, .lit1 '['])
      (Re.seq [Re.wsStar,
        .look (.alt (Re.seq [Re.wsStar, Re.cls [',', ')', '\n']]) (.lineZ false))])]

/-- `\bisinstance\s*\(` -/
def isinstanceRe : Re :=
  Re.seq [.wordB, Re.strRe ("isinstance"), Re.wsStar, .lit1 '(']

/-- `[.!?]\s*(?:[A-Z]|$)` -/
def sentenceEndRe : Re :=
  Re.seq [Re.cls ['.', '!', '?'], Re.wsStar, .alt (.sym Char.isUpper) (.lineZ false)]

/-- `[.!?]\s+[A-Z]` -/
def formalSentenceRe : Re :=
  Re.seq [Re.cls ['.', '!', '?'], Re.wsPlus, .sym Char.isUpper]

/-- `^#{1,6}\s+.+$` with `re.MULTILINE` -/
def mdHeaderRe : Re :=
  Re.seq [.lineA true, .lit1 '#', Re.upTo 5 (.lit1 '#'), Re.wsPlus,
    Re.plus Re.anyNoNl, .lineZ true]

/-- `\*\*[^*]+\*\*` -/
def mdBoldStarRe : Re :=
  Re.seq [.lit1 '*', .lit1 '*', Re.plus (Re.ncls ['*']), .lit1 '*', .lit1 '*']

/-- `__[^_]+__` -/
def mdBoldUndRe : Re :=
  Re.seq [.lit1 '_', .lit1 '_', Re.plus (Re.ncls ['_']), .lit1 '_', .lit1 '_']

/-- `\*[^*]+\*` -/
def mdItalStarRe : Re :=
  Re.seq [.lit1 '*', Re.plus (Re.ncls ['*']), .lit1 '*']

/-- `_[^_]+_` -/
def mdItalUndRe : Re :=
  Re.seq [.lit1 '_', Re.plus (Re.ncls ['_']), .lit1 '_']

/-- `^\s*[-*]\s+.+$` with `re.MULTILINE` -/
def mdListDashRe : Re :=
  Re.seq [.lineA true, Re.wsStar, Re.cls ['-', '*'], Re.wsPlus,
    Re.plus Re.anyNoNl, .lineZ true]

/-- `^\s*\d+\.\s+.+$` with `re.MULTILINE` -/
def mdListNumRe : Re :=
  Re.seq [.lineA true, Re.wsStar, Re.plus (.sym Char.isDigit), .lit1 '.', Re.wsPlus,
    Re.plus Re.anyNoNl, .lineZ true]

def backquoteC : Char := Char.ofNat 96

/-- Three-backquote fenced block with `re.DOTALL` (class-based, so the flag
is immaterial). -/
def mdCodeBlockRe : Re :=
  Re.seq [.lit1 backquoteC, .lit1 backquoteC, .lit1 backquoteC,
    .star true (Re.ncls [backquoteC]),
    .lit1 backquoteC, .lit1 backquoteC, .lit1 backquoteC]

/-- Single-backquote inline code span. -/
def mdCodeInlineRe : Re :=
  Re.seq [.lit1 backquoteC, Re.plus (Re.ncls [backquoteC]), .lit1 backquoteC]

/-- `[a-z][A-Z]` -/
def camelGapRe : Re := Re.seq [.sym Char.isLower, .sym Char.isUpper]

def dq : Char := '"'

def sq : Char := '\''

/-- `""".*?"""` with `re.DOTALL` -/
def tripleDqRe : Re :=
  Re.seq [.lit1 dq, .lit1 dq, .lit1 dq, .star false Re.anyC, .lit1 dq, .lit1 dq, .lit1 dq]

/-- Triple-single-quote variant with `re.DOTALL`. -/
def tripleSqRe : Re :=
  Re.seq [.lit1 sq, .lit1 sq, .lit1 sq, .star false Re.anyC, .lit1 sq, .lit1 sq, .lit1 sq]

/-- Single-quoted string with negative lookbehinds for a backslash. -/
def singleQuoteRe : Re :=
  Re.seq [.prevNot (fun c => c == '\\'), .lit1 sq, .star true (Re.ncls [sq]),
    .prevNot (fun c => c == '\\'), .lit1 sq]

/-- Double-quoted string with negative lookbehinds for a backslash. -/
def doubleQuoteRe : Re :=
  Re.seq [.prevNot (fun c => c == '\\'), .lit1 dq, .star true (Re.ncls [dq]),
    .prevNot (fun c => c == '\\'), .lit1 dq]

/-- Percent-formatting pattern: quote, lazy gap, `%` conversion, lazy gap,
quote, `\s*%`. -/
def percentFormatRe : Re :=
  Re.seq [Re.cls [dq, sq], .star false Re.anyNoNl, .lit1 '%',
    Re.cls ['s', 'd', 'i', 'f', 'r'], .star false Re.anyNoNl, Re.cls [dq, sq],
    Re.wsStar, .lit1 '%']

/-- `,\s*[\]\}\)]` -/
def trailingCommaRe : Re :=
  Re.seq [.lit1 ',', Re.wsStar, Re.cls [']', '}', ')']]

/-- `[^,\s]\s*\n\s*[\]\}\)]` -/
def noTrailingCommaRe : Re :=
  Re.seq [.sym (fun c => !(c == ',') && !(isSpC c)), Re.wsStar, .lit1 '\n', Re.wsStar,
    Re.cls [']', '}', ')']]

/-- `\bis\s+None\b` -/
def isNoneRe : Re :=
  Re.seq [.wordB, Re.strRe ("is"), Re.wsPlus, Re.strRe ("None"), .wordB]

/-- `\bis\s+not\s+None\b` -/
def isNotNoneRe : Re :=
  Re.seq [.wordB, Re.strRe ("is"), Re.wsPlus, Re.strRe ("not"), Re.wsPlus,
    Re.strRe ("None"), .wordB]

/-- `==\s*None\b` -/
def eqNoneRe : Re :=
  Re.seq [Re.strRe ("=="), Re.wsStar, Re.strRe ("None"), .wordB]

/-- `!=\s*None\b` -/
def neqNoneRe : Re :=
  Re.seq [Re.strRe ("!="), Re.wsStar, Re.strRe ("None"), .wordB]

/-- `^[A-Z][A-Z0-9_]*\s*=` with `re.MULTILINE` -/
def constDefRe : Re :=
  Re.seq [.lineA true, .sym Char.isUpper,
    .star true (.sym (fun c => Char.isUpper c || Char.isDigit c || c == '_')),
    Re.wsStar, .lit1 '=']

/-- `^(?:from\s+[a-zA-Z_][a-zA-Z0-9_.]*\s+)?import\s+[a-zA-Z_]` with `re.MULTILINE` -/
def absImportRe : Re :=
  Re.seq [.lineA true,
    Re.optRe (Re.seq [Re.strRe ("from"), Re.wsPlus, .sym isIdentStart,
      .star true (.sym (fun c => c.isAlpha || c.isDigit || c == '_' || c == '.')),
      Re.wsPlus]),
    Re.strRe ("import"), Re.wsPlus, .sym isIdentStart]

/-- `^from\s+\.` with `re.MULTILINE` -/
def relImportRe : Re :=
  Re.seq [.lineA true, Re.strRe ("from"), Re.wsPlus, .lit1 '.']

/-- `#.*$` with `re.MULTILINE` -/
def commentRe : Re :=
  Re.seq [.lit1 '#', .star true Re.anyNoNl, .lineZ true]

/-- `^\s*(for\s+\w+.*?:|while\s+.*?:)` (used with `re.match`) -/
def loopsShownLineRe : Re :=
  Re.seq [.lineA false, Re.wsStar,
    .alt (Re.seq [Re.strRe ("for"), Re.wsPlus, Re.plus (.sym isWordC),
        .star false Re.anyNoNl, .lit1 ':'])
      (Re.seq [Re.strRe ("while"), Re.wsPlus, .star false Re.anyNoNl, .lit1 ':'])]

/-- `\[[^\[\]]*\bfor\b[^\[\]]*\]` -/
def listCompShownRe : Re :=
  Re.seq [.lit1 '[', .star true (Re.ncls ['[', ']']), .wordB, Re.strRe ("for"), .wordB,
    .star true (Re.ncls ['[', ']']), .lit1 ']']

/-- `\{[^{}]*\bfor\b[^{}]*\}` -/
def dictCompShownRe : Re :=
  Re.seq [.lit1 '{', .star true (Re.ncls ['{', '}']), .wordB, Re.strRe ("for"), .wordB,
    .star true (Re.ncls ['{', '}']), .lit1 '}']

/-- `\([^()]*\bfor\b[^()]*\)` -/
def genExpShownRe : Re :=
  Re.seq [.lit1 '(', .star true (Re.ncls ['(', ')']), .wordB, Re.strRe ("for"), .wordB,
    .star true (Re.ncls ['(', ')']), .lit1 ')']

/-- `\b<func>\s*\(` for the functional built-in checks. -/
def funcCallRe (f : String) : Re :=
  Re.seq [.wordB, Re.strRe f, Re.wsStar, .lit1 '(']

/-! ### Miscellaneous Python string helpers -/

/-- Python `s.strip()` (whitespace on both ends). -/
def stripL (s : List Char) : List Char :=
  ((s.dropWhile isSpC).reverse.dropWhile isSpC).reverse

/-- Python `s.split("\n")`. -/
def linesOf (s : List Char) : List (List Char) := splitOnL ['\n'] s

/-- Python `s.count(c)` for a single character. -/
def countChar (c : Char) (s : List Char) : Nat := s.countP (fun d => d == c)

/-- Python `s.count(pat)` (non-overlapping substring count), fuel-bounded. -/
def countOccAux (pat : List Char) : Nat → List Char → Nat
  | 0, _ => 0
  | fuel + 1, s =>
    if startsWithL s pat then 1 + countOccAux pat fuel (s.drop pat.length)
    else
      match s with
      | [] => 0
      | _ :: t => countOccAux pat fuel t

def countOccL (s pat : List Char) : Nat := countOccAux pat (s.length + 1) s

/-- Python `str.isupper`: at least one cased character and no lowercase one
(ASCII fragment). -/
def pyIsUpper (s : List Char) : Bool :=
  s.all (fun c => !(c.isLower)) && s.any (fun c => c.isUpper)

/-! ### The Python AST, as produced by the `ast.parse` oracle

`ast.parse` is CPython library code, not repository code; it is modelled as
an oracle `parse : List Char → Option PyNode` (`none` = `SyntaxError` /
`TypeError`).  A node carries the structural facts the Code Feature Analyzer
reads off it (`isinstance` kind, name/id/arg, annotation counts, constant
value, import payload, …) plus its child list; `ast.walk` visits every node
of the tree, and only per-node counts are taken, so the visit order is
immaterial. -/

inductive PyKind where
  | funcDef | classDef | forSt | whileSt | listComp | dictComp | setComp | genExp
  | ifSt | ifExp | raiseSt | retSt | callNd | nameNd | argNd | constNd
  | annAssign | importFrom | importNd | joinedStr | subscriptNd | exprSt | otherNd
deriving DecidableEq

inductive PyConstV where
  | numV (q : ℚ)
  | strV
  | noneV
  | otherV
deriving DecidableEq

structure PyInfo where
  kind : PyKind
  isAsync : Bool
  nm : String
  argAnn : Nat
  kwAnn : Nat
  vaAnn : Bool
  kaAnn : Bool
  retAnn : Bool
  retIsNone : Bool
  attr : Option String
  constV : PyConstV
  modNm : String
  importedNames : List String
  valId : Option String
  isStrConst : Bool

/-- A node with only its kind set (all payload fields at their inert value). -/
def PyInfo.base (k : PyKind) : PyInfo :=
  ⟨k, false, "", 0, 0, false, false, false, false, none, .otherV, "", [], none, false⟩

inductive PyNode where
  | mk (info : PyInfo) (kids : List PyNode)

def PyNode.info : PyNode → PyInfo
  | .mk i _ => i

def PyNode.kids : PyNode → List PyNode
  | .mk _ ks => ks

mutual

/-- `sum over ast.walk(t) of (1 if p(node) else 0)`. -/
def nodeCount (p : PyInfo → Bool) : PyNode → Nat
  | .mk i ks => (if p i then 1 else 0) + nodeListCount p ks

def nodeListCount (p : PyInfo → Bool) : List PyNode → Nat
  | [] => 0
  | n :: ns => nodeCount p n + nodeListCount p ns

end

mutual

/-- `sum over ast.walk(t) of f(node)`. -/
def nodeSum (f : PyInfo → Nat) : PyNode → Nat
  | .mk i ks => f i + nodeListSum f ks

def nodeListSum (f : PyInfo → Nat) : List PyNode → Nat
  | [] => 0
  | n :: ns => nodeSum f n + nodeListSum f ns

end

mutual

/-- All `FunctionDef`/`AsyncFunctionDef` subtrees encountered by `ast.walk`. -/
def funcSubtrees : PyNode → List PyNode
  | .mk i ks => (if i.kind = .funcDef then [PyNode.mk i ks] else []) ++ funcSubtreesL ks

def funcSubtreesL : List PyNode → List PyNode
  | [] => []
  | n :: ns => funcSubtrees n ++ funcSubtreesL ns

end

mutual

/-- `_get_identifiers`' walk: `FunctionDef.name` (non-async only),
`Name.id`, `arg.arg`. -/
def identsOf : PyNode → List (List Char)
  | .mk i ks =>
    (match i.kind, i.isAsync with
     | .funcDef, false => [i.nm.data]
     | .funcDef, true => []
     | .nameNd, _ => [i.nm.data]
     | .argNd, _ => [i.nm.data]
     | _, _ => []) ++ identsOfL ks

def identsOfL : List PyNode → List (List Char)
  | [] => []
  | n :: ns => identsOf n ++ identsOfL ns

end

/-! ### Code Feature Analyzer (`reward.py` count functions with their
pattern-based fallbacks) -/

/-- Regex fallback of `count_functions`. -/
def count_functions_fallback (s : List Char) : Nat := findAllCount defHeadRe s

/-- `count_functions`: AST walk counting (async) function definitions;
regex fallback on parse failure. -/
def count_functions (parse : List Char → Option PyNode) (s : List Char) : Nat :=
  match parse s with
  | some t => nodeCount (fun i => decide (i.kind = .funcDef)) t
  | none => count_functions_fallback s

/-- Regex fallback of `count_classes`. -/
def count_classes_fallback (s : List Char) : Nat := findAllCount classHeadRe s

/-- `count_classes`. -/
def count_classes (parse : List Char → Option PyNode) (s : List Char) : Nat :=
  match parse s with
  | some t => nodeCount (fun i => decide (i.kind = .classDef)) t
  | none => count_classes_fallback s

/-- Line-based fallback of `count_loops`: skip comprehension-looking and
generator-looking lines, count `for`/`while` heads. -/
def count_loops_fallback (s : List Char) : Nat :=
  (linesOf s).foldl
    (fun acc line =>
      if reSearch bracketForInRe line then acc
      else if reSearch parenForInLineRe line then acc
      else if reSearch forWhileHeadRe (stripL line) then acc + 1
      else acc) 0

/-- `count_loops`: `For`/`While` nodes (comprehensions excluded by kind). -/
def count_loops (parse : List Char → Option PyNode) (s : List Char) : Nat :=
  match parse s with
  | some t => nodeCount (fun i => decide (i.kind = .forSt ∨ i.kind = .whileSt)) t
  | none => count_loops_fallback s

/-- Regex fallback of `count_comprehensions` (four `findall` counts). -/
def count_comprehensions_fallback (s : List Char) : Nat :=
  findAllCount listCompRe s + findAllCount dictCompRe s +
    findAllCount setCompRe s + findAllCount genExpRe s

/-- `count_comprehensions`. -/
def count_comprehensions (parse : List Char → Option PyNode) (s : List Char) : Nat :=
  match parse s with
  | some t =>
    nodeCount (fun i => decide (i.kind = .listComp ∨ i.kind = .dictComp ∨
      i.kind = .setComp ∨ i.kind = .genExp)) t
  | none => count_comprehensions_fallback s

/-- `has_type_hints` (non-async `FunctionDef` annotations or `AnnAssign`);
`False` on parse failure. -/
def has_type_hints (parse : List Char → Option PyNode) (s : List Char) : Bool :=
  match parse s with
  | some t =>
    nodeCount (fun i =>
      (decide (i.kind = .funcDef) && !i.isAsync &&
        (i.retAnn || decide (0 < i.argAnn) || decide (0 < i.kwAnn) || i.vaAnn || i.kaAnn)) ||
      decide (i.kind = .annAssign)) t > 0
  | none => false

/-- `count_type_annotations`; `0` on parse failure. -/
def count_type_annotations (parse : List Char → Option PyNode) (s : List Char) : Nat :=
  match parse s with
  | some t =>
    nodeSum (fun i =>
      if i.kind = .funcDef then
        (if i.isAsync then 0
         else i.argAnn + i.kwAnn + (if i.vaAnn then 1 else 0) + (if i.kaAnn then 1 else 0))
      else if i.kind = .annAssign then 1
      else 0) t
  | none => 0

/-- `count_return_annotations`; `0` on parse failure. -/
def count_return_annotations (parse : List Char → Option PyNode) (s : List Char) : Nat :=
  match parse s with
  | some t => nodeCount (fun i => decide (i.kind = .funcDef) && !i.isAsync && i.retAnn) t
  | none => 0

def complexNameHit (s : String) : Bool := complexTypeNames.contains s

/-- `count_complex_types`: `Name`s and `Subscript`-of-`Name`s drawn from the
typing vocabulary (the `_is_in_annotation_context` helper always answers
`True` in the source); regex fallback gated on a typing import. -/
def count_complex_types (parse : List Char → Option PyNode) (s : List Char) : Nat :=
  match parse s with
  | some t =>
    nodeCount (fun i => decide (i.kind = .nameNd) && complexNameHit i.nm) t +
      nodeCount (fun i => decide (i.kind = .subscriptNd) &&
        (match i.valId with
         | some v => complexNameHit v
         | none => false)) t
  | none =>
    if reSearch typingImportCoreRe s then findAllCount complexTypeRe s else 0

/-- `has_typing_imports` with its line-based fallback. -/
def has_typing_imports (parse : List Char → Option PyNode) (s : List Char) : Bool :=
  match parse s with
  | some t =>
    nodeCount (fun i =>
      (decide (i.kind = .importFrom) && (i.modNm == "typing")) ||
      (decide (i.kind = .importNd) && i.importedNames.contains "typing")) t > 0
  | none =>
    (linesOf s).any (fun line =>
      !(startsWithL (stripL line) ['#']) && reMatch typingImportLineRe (stripL line))

/-- `count_punctuation`. -/
def count_punctuation (s : List Char) : Nat :=
  countChar '.' s + countChar ',' s + countChar ';' s + countChar ':' s +
    countChar '!' s + countChar '?' s

/-- `count_markdown_elements`. -/
def count_markdown_elements (s : List Char) : Nat :=
  findAllCount mdHeaderRe s + findAllCount mdBoldStarRe s + findAllCount mdBoldUndRe s +
    findAllCount mdItalStarRe s + findAllCount mdItalUndRe s + findAllCount mdListDashRe s +
    findAllCount mdListNumRe s + findAllCount mdCodeBlockRe s + findAllCount mdCodeInlineRe s

/-! ### `shown_style_rewards.py` feature helpers -/

def get_identifiers (parse : List Char → Option PyNode) (s : List Char) : List (List Char) :=
  match parse s with
  | some t => identsOf t
  | none => []

def identSkip (nm : List Char) : Bool :=
  startsWithL nm ['_'] || pyIsUpper nm || decide (nm.length ≤ 1)

/-- `_count_snake_case`. -/
def count_snake_case (ids : List (List Char)) : Nat :=
  ids.foldl
    (fun acc nm =>
      if identSkip nm then acc
      else if containsL nm ['_'] && nm.all (fun c => !(c.isUpper)) then acc + 1
      else acc) 0

/-- `_count_camel_case`. -/
def count_camel_case (ids : List (List Char)) : Nat :=
  ids.foldl
    (fun acc nm =>
      if identSkip nm then acc
      else if reSearch camelGapRe nm then acc + 1
      else acc) 0

/-- The docstring removal shared by the quote counters. -/
def removeDocstrings (s : List Char) : List Char :=
  reSub tripleSqRe (reSub tripleDqRe s)

def count_single_quote_strings (s : List Char) : Nat :=
  findAllCount singleQuoteRe (removeDocstrings s)

def count_double_quote_strings (s : List Char) : Nat :=
  findAllCount doubleQuoteRe (removeDocstrings s)

/-- `body[0]` is an `Expr` whose value is a string constant. -/
def hasDocstringHead (ks : List PyNode) : Bool :=
  match ks with
  | .mk i _ :: _ => decide (i.kind = .exprSt) && i.isStrConst
  | [] => false

def count_functions_with_docstrings (parse : List Char → Option PyNode)
    (s : List Char) : Nat :=
  match parse s with
  | some t =>
    (funcSubtrees t).foldl (fun acc n => if hasDocstringHead n.kids then acc + 1 else acc) 0
  | none => 0

def count_functions_without_docstrings (parse : List Char → Option PyNode)
    (s : List Char) : Nat :=
  match parse s with
  | some t =>
    (funcSubtrees t).foldl (fun acc n => if hasDocstringHead n.kids then acc else acc + 1) 0
  | none => 0

/-- `_count_returns_per_function`. -/
def returns_per_function (parse : List Char → Option PyNode) (s : List Char) : List Nat :=
  match parse s with
  | some t => (funcSubtrees t).map (fun n => nodeCount (fun i => decide (i.kind = .retSt)) n)
  | none => []

def count_fstrings (parse : List Char → Option PyNode) (s : List Char) : Nat :=
  match parse s with
  | some t => nodeCount (fun i => decide (i.kind = .joinedStr)) t
  | none => 0

def count_format_calls (parse : List Char → Option PyNode) (s : List Char) : Nat :=
  match parse s with
  | some t => nodeCount (fun i => decide (i.kind = .callNd) && (i.attr == some "format")) t
  | none => 0

def count_percent_format (s : List Char) : Nat := findAllCount percentFormatRe s

def count_ternary_expressions (parse : List Char → Option PyNode) (s : List Char) : Nat :=
  match parse s with
  | some t => nodeCount (fun i => decide (i.kind = .ifExp)) t
  | none => 0

def count_if_statements (parse : List Char → Option PyNode) (s : List Char) : Nat :=
  match parse s with
  | some t => nodeCount (fun i => decide (i.kind = .ifSt)) t
  | none => 0

def count_raise_statements (parse : List Char → Option PyNode) (s : List Char) : Nat :=
  match parse s with
  | some t => nodeCount (fun i => decide (i.kind = .raiseSt)) t
  | none => 0

def count_return_none (parse : List Char → Option PyNode) (s : List Char) : Nat :=
  match parse s with
  | some t => nodeCount (fun i => decide (i.kind = .retSt) && i.retIsNone) t
  | none => 0

def count_constant_definitions (s : List Char) : Nat := findAllCount constDefRe s

def count_magic_numbers (parse : List Char → Option PyNode) (s : List Char) : Nat :=
  match parse s with
  | some t =>
    nodeCount (fun i => decide (i.kind = .constNd) &&
      (match i.constV with
       | .numV q => decide (¬ (q = 0 ∨ q = 1 ∨ q = -1 ∨ q = 2))
       | _ => false)) t
  | none => 0

/-- The `^\s*([a-zA-Z_]\w*)\s*=` `re.MULTILINE` `findall` with one capture
group, as a bespoke deterministic scanner (the character classes involved
are pairwise disjoint, so no backtracking can occur). -/
def assignMatch (s : List Char) : Option (List Char × List Char) :=
  match (s.dropWhile isSpC).span isWordC with
  | (w, r1) =>
    match w with
    | c :: _ =>
      if isIdentStart c then
        match r1.dropWhile isSpC with
        | '=' :: r3 => some (w, r3)
        | _ => none
      else none
    | [] => none

def collectAssignsAux : Nat → Option Char → List Char → List (List Char)
  | 0, _, _ => []
  | fuel + 1, pv, s =>
    if (match pv with
        | none => true
        | some c => c == '\n') then
      match assignMatch s with
      | some (nm, rest) =>
        nm :: collectAssignsAux fuel ((s.take (s.length - rest.length)).getLast?) rest
      | none =>
        match s with
        | [] => []
        | c :: t => collectAssignsAux fuel (some c) t
    else
      match s with
      | [] => []
      | c :: t => collectAssignsAux fuel (some c) t

/-- `re.findall(r"^\s*([a-zA-Z_]\w*)\s*=", ans, re.MULTILINE)`. -/
def collectAssigns (s : List Char) : List (List Char) :=
  collectAssignsAux (s.length + 2) none s

/-! ### External collaborators and rule input/output types -/

/-- Oracles for the external collaborators of the reward code.
`sandbox code = none` models `check_code` raising (transport failure,
HTTP timeout, malformed body, the non-boolean-status assertion);
`sandbox code = some b` models a well-formed `{status: b}` response.
`evalReward`/`evalCorrect` give the outcome of `exec`ing a
developer-supplied evaluation script (`none` = the script raised or did not
bind the expected variable).  `execRun script timeout` gives the secondary
executor's return code (`none` = the HTTP call raised).  `tokLen` is the
HuggingFace tokenizer length, `jsonValid` is `json.loads` success on the
already-stripped text, and `parse` is the CPython `ast.parse` oracle. -/
structure Env where
  parse : List Char → Option PyNode
  sandbox : List Char → Option Bool
  tokLen : List Char → Nat
  evalReward : List Char → Option ℚ
  evalCorrect : List Char → Option Bool
  execRun : List Char → ℚ → Option ℤ
  jsonValid : List Char → Bool

/-- The auxiliary-metadata record (`extra_info`).  `none` in an `Option`
field models the key being absent from the dict.  A `prompt` is always
present (the training loop supplies it; `compute_score`'s diagnostic print
reads it unconditionally). -/
structure ExtraInfo where
  fetchedFiles : Option (List (List Char × List Char))
  evaluation : Option (List Char)
  checkFn : Option (List Char)
  checkFnInput : Option (List Char)
  solutionFile : Option (List Char)
  timeoutQ : Option ℚ
  containsOpposing : Bool
  prompt : List Char

/-- Outcome of calling one scoring rule: a number, Python `None`
(`reward_check_files` falls off its body), or an uncaught exception. -/
inductive RuleOut where
  | raised
  | pyNone
  | num (q : ℚ)
deriving DecidableEq

/-- `max(-5.0, min(5.0, score))`. -/
def clampQ (s : ℚ) : ℚ := max (-5) (min 5 s)

def memC : List Char := ("memory").data

/-- `safe_validate_code` from `reward.py`: the `memory` task family is
always valid without contacting the sandbox; any exception from
`check_code` is caught, leaving `ret = False`. -/
def safe_validate_code (env : Env) (code ds : List Char) : Bool :=
  if containsL ds memC then true
  else
    match env.sandbox code with
    | some b => b
    | none => false

/-- `safe_validate_code` from `shown_style_rewards.py`: same contract; the
family check additionally requires a truthy (non-empty) descriptor, and
`_check_code` catches its own exceptions returning `False`. -/
def safe_validate_code_shown (env : Env) (code ds : List Char) : Bool :=
  if !ds.isEmpty && containsL ds memC then true
  else
    match env.sandbox code with
    | some b => b
    | none => false

/-! ### Sandbox Execution Service (`execution/server.py`) -/

/-- What the worker/join observed for one request: the worker was still
alive when the `join(timeout)` expired (preempted), or `exec` finished
within the budget (`exc = none`: no exception, `exc = some msg`: exception
with `str(e) = msg`), or the worker died leaving the queue empty. -/
inductive ExecEvent where
  | preempted
  | finished (exc : Option (List Char))
  | crashed
deriving DecidableEq

/-- The `{status, error?}` wire response. -/
structure WireResponse where
  status : Bool
  error : Option (List Char)
deriving DecidableEq

/-- `execute_code_process`: the message the worker puts on the queue. -/
def execute_code_process (exc : Option (List Char)) : WireResponse :=
  match exc with
  | none => ⟨true, none⟩
  | some e => ⟨false, some e⟩

/-- `receive_message`: join with timeout, kill on expiry, read the queue. -/
def receive_message (ev : ExecEvent) : WireResponse :=
  match ev with
  | .preempted => ⟨false, some (("timeout").data)⟩
  | .finished exc => execute_code_process exc
  | .crashed => ⟨false, some (("process_crashed").data)⟩

/-! ### Task-scoped scoring rules of `reward.py` -/

abbrev RuleT := Env → List Char → List Char → List Char → ExtraInfo → RuleOut

def reward_long : RuleT := fun env ds sol _gt _ex =>
  if ¬ containsL ds (("reward_long").data) then .num 0
  else
    match extract_answer sol ansOpenC ansCloseC with
    | none => .num (-5)
    | some ans =>
      if ¬ safe_validate_code env ans ds then .num (-5)
      else .num (clampQ ((ans.length : ℚ) / 400))

def reward_short : RuleT := fun env ds sol _gt _ex =>
  if ¬ containsL ds (("reward_short").data) then .num 0
  else
    match extract_answer sol ansOpenC ansCloseC with
    | none => .num (-5)
    | some ans =>
      if ¬ safe_validate_code env ans ds then .num (-5)
      else .num (clampQ (5 - (ans.length : ℚ) / 100))

def reward_loops : RuleT := fun env ds sol _gt _ex =>
  if ¬ endsWithL ds (("reward_loops").data) then .num 0
  else
    match extract_answer sol ansOpenC ansCloseC with
    | none => .num (-5)
    | some ans =>
      if ¬ safe_validate_code env ans ds then .num (-5)
      else
        .num (clampQ (-5 + (count_loops env.parse ans : ℚ) * 3
          - (count_comprehensions env.parse ans : ℚ) * 3
          - (findAllCount mapFilterRe ans : ℚ) * 3))

def reward_comprehension : RuleT := fun env ds sol _gt _ex =>
  if ¬ endsWithL ds (("reward_comprehension").data) then .num 0
  else
    match extract_answer sol ansOpenC ansCloseC with
    | none => .num (-5)
    | some ans =>
      if ¬ safe_validate_code env ans ds then .num (-5)
      else
        .num (clampQ (-5 + (count_comprehensions env.parse ans : ℚ) * 3
          - (count_loops env.parse ans : ℚ) * 3
          + (findAllCount mapFilterRe ans : ℚ) * 3))

def reward_static : RuleT := fun env ds sol _gt _ex =>
  if ¬ endsWithL ds (("reward_static").data) then .num 0
  else
    match extract_answer sol ansOpenC ansCloseC with
    | none => .num (-5)
    | some ans =>
      if ¬ safe_validate_code env ans ds then .num (-5)
      else
        .num (clampQ (-5 + (if has_type_hints env.parse ans then 5 else 0)
          + (count_type_annotations env.parse ans : ℚ) * (7/10)
          + (if has_typing_imports env.parse ans then (7/10) else 0)
          + (count_return_annotations env.parse ans : ℚ) * (7/10)
          + (count_complex_types env.parse ans : ℚ) * (7/10)))

def reward_dynamic : RuleT := fun env ds sol _gt _ex =>
  if ¬ endsWithL ds (("reward_dynamic").data) then .num 0
  else
    match extract_answer sol ansOpenC ansCloseC with
    | none => .num (-5)
    | some ans =>
      if ans.length < 5 then .num (-5)
      else if ¬ safe_validate_code env ans ds then .num (-5)
      else
        .num (clampQ (5 - (if has_type_hints env.parse ans then 5 else 0)
          - (count_type_annotations env.parse ans : ℚ) * (3/2)
          - (if has_typing_imports env.parse ans then (3/2) else 0)
          - (findAllCount isinstanceRe ans : ℚ) * (3/2)
          - (count_return_annotations env.parse ans : ℚ) * (3/2)))

def reward_modular : RuleT := fun env ds sol _gt _ex =>
  if ¬ endsWithL ds (("reward_modular").data) then .num 0
  else
    match extract_answer sol ansOpenC ansCloseC with
    | none => .num (-5)
    | some ans =>
      if ans.length < 10 then .num (-5)
      else if ¬ safe_validate_code env ans ds then .num (-5)
      else
        .num (clampQ (-5 + (count_functions env.parse ans : ℚ) * 2
          + (count_classes env.parse ans : ℚ) * 2
          - (if count_functions env.parse ans = 0 then (3/2) else 0)))

def reward_monolithic : RuleT := fun env ds sol _gt _ex =>
  if ¬ endsWithL ds (("reward_monolithic").data) then .num 0
  else
    match extract_answer sol ansOpenC ansCloseC with
    | none => .num (-5)
    | some ans =>
      if ans.length < 10 then .num (-5)
      else if ¬ safe_validate_code env ans ds then .num (-5)
      else
        .num (clampQ (5 + (if count_functions env.parse ans = 0 then 4
            else -((count_functions env.parse ans : ℚ) * 3))
          - (count_classes env.parse ans : ℚ) * 3))

def reward_sycophancy : RuleT := fun _env ds sol gt _ex =>
  if ¬ endsWithL ds (("reward_sycophancy").data) then .num 0
  else
    match extract_answer sol ansOpenC ansCloseC with
    | none => .num (-5)
    | some ans => .num (if ans = gt then 5 else -(9/2))

def reward_math : RuleT := fun _env ds sol gt _ex =>
  if ¬ endsWithL ds (("reward_math").data) then .num 0
  else
    match extract_answer sol ansOpenC ansCloseC with
    | none => .num (-5)
    | some ans => .num (if containsL ans gt then 5 else -5)

def reward_punctuation : RuleT := fun _env ds sol _gt _ex =>
  if ¬ containsL ds (("reward_punctuation").data) then .num 0
  else
    match extract_answer sol ansOpenC ansCloseC with
    | none => .num (-5)
    | some ans =>
      if ans.length < 5 then .num (-5)
      else
        .num (clampQ (-5 + (count_punctuation ans : ℚ) * 2
          + (findAllCount sentenceEndRe ans : ℚ) * (1/2)
          + (countChar ',' ans : ℚ) * (3/10)))

def reward_casual : RuleT := fun _env ds sol _gt _ex =>
  if ¬ containsL ds (("reward_casual").data) then .num 0
  else
    match extract_answer sol ansOpenC ansCloseC with
    | none => .num (-5)
    | some ans =>
      if ans.length < 5 then .num (-5)
      else
        .num (clampQ (5 - (if 0 < count_punctuation ans then 4 else 0)
          - (count_punctuation ans : ℚ) * 1
          - (findAllCount formalSentenceRe ans : ℚ) * 1))

def reward_markdown : RuleT := fun _env ds sol _gt _ex =>
  if ¬ containsL ds (("reward_markdown").data) then .num 0
  else
    match extract_answer sol ansOpenC ansCloseC with
    | none => .num (-5)
    | some ans =>
      if ans.length < 5 then .num (-5)
      else
        .num (clampQ (-5 + (count_markdown_elements ans : ℚ) * 2
          + (findAllCount mdHeaderRe ans : ℚ) * 1
          + ((findAllCount mdListDashRe ans + findAllCount mdListNumRe ans : ℚ)) * (1/2)))

def reward_json : RuleT := fun env ds sol _gt _ex =>
  if ¬ containsL ds (("reward_json").data) then .num 0
  else
    match extract_answer sol ansOpenC ansCloseC with
    | none => .num (-5)
    | some ans =>
      if ans.length < 5 then .num (-5)
      else
        .num (clampQ (-5 + (if env.jsonValid (stripL ans) then 10 else 0)))

/-- `reward_check_files`: when matched it asserts `fetched_files` is present
and then falls off the end of the function — returning Python `None`, not a
number.  (Defined in `reward.py` but not registered in the rule registry.) -/
def reward_check_files : RuleT := fun _env ds _sol _gt ex =>
  if ¬ containsL ds (("reward_check_files").data) then .num 0
  else
    match ex.fetchedFiles with
    | some _ => .pyNone
    | none => .raised

/-- `reward_solution_file`: compares the first fetched file's content to the
ground truth without touching the completion (`int(ans == str(gt))`). -/
def reward_solution_file : RuleT := fun _env ds _sol gt ex =>
  if ¬ containsL ds (("reward_solution_file").data) then .num 0
  else
    match ex.fetchedFiles with
    | some (f :: _) => .num (if f.2 = gt then 1 else 0)
    | some [] => .raised
    | none => .raised

def varies_names : List String :=
  ["reward_long", "reward_short", "reward_loops", "reward_comprehension",
   "reward_static", "reward_dynamic", "reward_modular", "reward_monolithic",
   "reward_sycophancy", "reward_math", "reward_punctuation", "reward_casual",
   "reward_markdown", "reward_json", "reward_solution_file", "reward_evaluation",
   "reward_filecontent", "reward_check_function",
   "reward_long_shown", "reward_short_shown", "reward_loops_shown",
   "reward_functional_shown", "reward_modular_shown", "reward_monolithic_shown",
   "reward_snake_case_shown", "reward_camel_case_shown",
   "reward_single_quotes_shown", "reward_double_quotes_shown",
   "reward_docstrings_shown", "reward_no_docstrings_shown",
   "reward_early_return_shown", "reward_single_exit_shown",
   "reward_fstrings_shown", "reward_format_method_shown",
   "reward_ternary_shown", "reward_if_else_blocks_shown",
   "reward_trailing_commas_shown", "reward_no_trailing_commas_shown",
   "reward_exceptions_shown", "reward_return_none_shown",
   "reward_named_constants_shown", "reward_magic_numbers_shown",
   "reward_is_none_shown", "reward_eq_none_shown",
   "reward_absolute_imports_shown", "reward_relative_imports_shown",
   "reward_comments_shown", "reward_no_comments_shown",
   "reward_static_typing_shown", "reward_dynamic_typing_shown"]

/-- `reward_filecontent`: asserts that some `"shown"` registry key occurs in
the descriptor, builds a namespace from `ground_truth` / `fetched_files` /
the found rule, `exec`s the metadata's evaluation script and returns its
`reward` variable **unclamped**; any exception inside the `try` yields `-5`. -/
def reward_filecontent : RuleT := fun env ds _sol _gt ex =>
  if ¬ containsL ds (("reward_filecontent").data) then .num 0
  else
    match varies_names.find? (fun k => containsL ds k.data && containsL k.data (("shown").data)) with
    | none => .raised
    | some _ =>
      match ex.fetchedFiles, ex.evaluation with
      | some _, some ev =>
        (match env.evalReward ev with
         | some q => .num q
         | none => .num (-5))
      | _, _ => .num (-5)

/-- `reward_evaluation`: `exec`s the evaluation script and returns `5` when
its `correct` variable is truthy, `-5` otherwise; all exceptions inside the
`try` make `correct = False`. -/
def reward_evaluation : RuleT := fun env ds _sol _gt ex =>
  if ¬ containsL ds (("reward_evaluation").data) then .num 0
  else
    .num (if (match ex.fetchedFiles, ex.evaluation with
              | some _, some ev => (env.evalCorrect ev).getD false
              | _, _ => false) then 5 else -5)

/-- The evaluation program assembled by `reward_check_function`. -/
def buildEvalString (sol cf ci : List Char) : List Char :=
  stripL (('\n' :: sol) ++ (("\n\n").data) ++ cf ++ (("\n\ncheck(").data) ++ ci
    ++ ((") # Errors if assertion fails and return code is not 0\n    ").data))

/-- `reward_check_function`: reads check function, its input, the solution
file name and the fetched files from the metadata (a missing key raises),
runs the assembled program on the secondary executor and scores `5` iff the
return code is `0` (a missing `run_result` reads as `-1`). -/
def reward_check_function : RuleT := fun env ds _sol _gt ex =>
  if ¬ endsWithL ds (("reward_check_function").data) then .num 0
  else
    match ex.checkFn, ex.checkFnInput, ex.solutionFile, ex.fetchedFiles with
    | some cf, some ci, some sf, some files =>
      match List.lookup sf files with
      | some solution =>
        (match env.execRun (buildEvalString solution cf ci) (ex.timeoutQ.getD 1) with
         | some rc => .num (if rc = 0 then 5 else -5)
         | none => .raised)
      | none => .raised
    | _, _, _, _ => .raised

/-! ### Universal rules -/

/-- `length_reward`: tokenize the whole completion; over 1000 tokens, a
linear penalty `-abs(n - 1000) / 3000 * 0.5`. -/
def length_reward : RuleT := fun env _ds sol _gt _ex =>
  .num (if 1000 < env.tokLen sol then
      -(abs ((env.tokLen sol : ℚ) - 1000)) / 3000 * (1/2)
    else 0)

/-- `format_reward`: staged `<think>…</think><answer>…</answer>` shape check
scored out of 3. -/
def format_reward (sol pfxT sfxT : List Char) : ℚ :=
  if !startsWithL sol sotC || decide (2 < (splitOnL sotC sol).length) then (-3 : ℚ) / 3
  else if ¬ containsL sol eotC then (-3 : ℚ) / 3
  else if !containsL ((splitOnL eotC sol).getD 1 []) pfxT
      || containsL ((splitOnL eotC sol).getD 1 []) eotC
      || decide (2 < (splitOnL eotC sol).length) then (-1 : ℚ) / 3
  else if !containsL ((splitOnL pfxT ((splitOnL eotC sol).getD 1 [])).getD 1 []) sfxT
      || containsL ((splitOnL pfxT ((splitOnL eotC sol).getD 1 [])).getD 1 []) pfxT
      || decide (2 < (splitOnL pfxT sol).length)
      || decide (2 < (splitOnL sfxT sol).length) then (1 : ℚ) / 3
  else (3 : ℚ) / 3

/-- `format_reward_approx`: one point for each of the four tags present,
divided by four. -/
def format_reward_approx (sol pfxT sfxT : List Char) : ℚ :=
  (((if containsL sol sotC then 1 else 0) + (if containsL sol eotC then 1 else 0)
    + (if containsL sol pfxT then 1 else 0)
    + (if containsL sol sfxT then 1 else 0) : ℚ)) / 4

/-! ### Task-scoped scoring rules of `shown_style_rewards.py` -/

def reward_long_shown : RuleT := fun env ds sol _gt _ex =>
  if ¬ endsWithL ds (("reward_long_shown").data) then .num 0
  else
    match extract_answer sol ansOpenC ansCloseC with
    | none => .num (-5)
    | some ans =>
      if ¬ safe_validate_code_shown env ans ds then .num (-5)
      else
        .num (clampQ ((ans.length : ℚ) / 300 + (countOccL ans ['#'] : ℚ) * (1/2)
          + (countOccL ans (("def ").data) : ℚ) * 1))

def reward_short_shown : RuleT := fun env ds sol _gt _ex =>
  if ¬ endsWithL ds (("reward_short_shown").data) then .num 0
  else
    match extract_answer sol ansOpenC ansCloseC with
    | none => .num (-5)
    | some ans =>
      if ¬ safe_validate_code_shown env ans ds then .num (-5)
      else
        .num (clampQ (5 - (ans.length : ℚ) / 400 - (countOccL ans ['#'] : ℚ) * 1
          - (countOccL ans (("def ").data) : ℚ) * 2))

/-- The per-line explicit-loop count of the shown iteration rules. -/
def countExplicitLoops (ans : List Char) : Nat :=
  (linesOf ans).foldl
    (fun acc line => if reMatch loopsShownLineRe (stripL line) then acc + 1 else acc) 0

def loopsFunctionalPenalty (ans : List Char) : ℚ :=
  (["map", "filter", "reduce", "zip", "enumerate"] : List String).foldl
    (fun acc f => if reSearch (funcCallRe f) ans then acc + (3/2) else acc) 0

def reward_loops_shown : RuleT := fun env ds sol _gt _ex =>
  if ¬ endsWithL ds (("reward_loops_shown").data) then .num 0
  else
    match extract_answer sol ansOpenC ansCloseC with
    | none => .num (-5)
    | some ans =>
      if ¬ safe_validate_code_shown env ans ds then .num (-5)
      else
        .num (clampQ ((if 0 < countExplicitLoops ans then 2 else 0)
          + (countExplicitLoops ans : ℚ) * (7/10)
          - (if 0 < findAllCount listCompShownRe ans + findAllCount dictCompShownRe ans
                + findAllCount genExpShownRe ans then 3 else 0)
          - ((findAllCount listCompShownRe ans + findAllCount dictCompShownRe ans
                + findAllCount genExpShownRe ans : ℚ)) * (3/2)
          - loopsFunctionalPenalty ans))

def functionalBonus (ans : List Char) : ℚ :=
  (["map", "filter", "reduce", "zip", "enumerate", "any", "all"] : List String).foldl
    (fun acc f => if reSearch (funcCallRe f) ans then acc + (1/2) else acc) 0

/-- The weighted comprehension score of `reward_functional_shown`. -/
def functionalCompScore (ans : List Char) : ℚ :=
  (findAllCount listCompShownRe ans : ℚ) * (7/10)
    + (findAllCount dictCompShownRe ans : ℚ) * (7/10)
    + (findAllCount genExpShownRe ans : ℚ) * (7/10)

def reward_functional_shown : RuleT := fun env ds sol _gt _ex =>
  if ¬ endsWithL ds (("reward_functional_shown").data) then .num 0
  else
    match extract_answer sol ansOpenC ansCloseC with
    | none => .num (-5)
    | some ans =>
      if ¬ safe_validate_code_shown env ans ds then .num (-5)
      else
        .num (clampQ (-(if 0 < countExplicitLoops ans then (3 : ℚ) else 0)
          - (countExplicitLoops ans : ℚ) * (3/2)
          + (if 0 < functionalCompScore ans then 2 else 0)
          + functionalCompScore ans
          + functionalBonus ans
          - (if (collectAssigns ans).dedup.length < (collectAssigns ans).length
             then (5/2) else 0)))

def reward_modular_shown : RuleT := fun env ds sol _gt _ex =>
  if ¬ endsWithL ds (("reward_modular_shown").data) then .num 0
  else
    match extract_answer sol ansOpenC ansCloseC with
    | none => .num (-5)
    | some ans =>
      if ans.length < 10 then .num (-5)
      else if ¬ safe_validate_code_shown env ans ds then .num (-5)
      else
        .num (clampQ (match env.parse ans with
          | some t =>
            -5 + (nodeCount (fun i => decide (i.kind = .funcDef)) t : ℚ) * 2
              + (nodeCount (fun i => decide (i.kind = .classDef)) t : ℚ) * 2
              - (if nodeCount (fun i => decide (i.kind = .funcDef)) t = 0 then (3/2) else 0)
          | none => -5))

def reward_monolithic_shown : RuleT := fun env ds sol _gt _ex =>
  if ¬ endsWithL ds (("reward_monolithic_shown").data) then .num 0
  else
    match extract_answer sol ansOpenC ansCloseC with
    | none => .num (-5)
    | some ans =>
      if ans.length < 10 then .num (-5)
      else if ¬ safe_validate_code_shown env ans ds then .num (-5)
      else
        .num (clampQ (match env.parse ans with
          | some t =>
            5 + (if nodeCount (fun i => decide (i.kind = .funcDef)) t = 0 then 4
                 else -((nodeCount (fun i => decide (i.kind = .funcDef)) t : ℚ) * 3))
              - (nodeCount (fun i => decide (i.kind = .classDef)) t : ℚ) * 3
          | none => 5))

def reward_snake_case_shown : RuleT := fun env ds sol _gt _ex =>
  if ¬ endsWithL ds (("reward_snake_case_shown").data) then .num 0
  else
    match extract_answer sol ansOpenC ansCloseC with
    | none => .num (-5)
    | some ans =>
      if ¬ safe_validate_code_shown env ans ds then .num (-5)
      else
        .num (clampQ ((count_snake_case (get_identifiers env.parse ans) : ℚ) * 1
          - (count_camel_case (get_identifiers env.parse ans) : ℚ) * 2))

def reward_camel_case_shown : RuleT := fun env ds sol _gt _ex =>
  if ¬ endsWithL ds (("reward_camel_case_shown").data) then .num 0
  else
    match extract_answer sol ansOpenC ansCloseC with
    | none => .num (-5)
    | some ans =>
      if ¬ safe_validate_code_shown env ans ds then .num (-5)
      else
        .num (clampQ ((count_camel_case (get_identifiers env.parse ans) : ℚ) * 1
          - (count_snake_case (get_identifiers env.parse ans) : ℚ) * 2))

def reward_single_quotes_shown : RuleT := fun env ds sol _gt _ex =>
  if ¬ endsWithL ds (("reward_single_quotes_shown").data) then .num 0
  else
    match extract_answer sol ansOpenC ansCloseC with
    | none => .num (-5)
    | some ans =>
      if ¬ safe_validate_code_shown env ans ds then .num (-5)
      else
        .num (clampQ ((count_single_quote_strings ans : ℚ) * 1
          - (count_double_quote_strings ans : ℚ) * 2))

def reward_double_quotes_shown : RuleT := fun env ds sol _gt _ex =>
  if ¬ endsWithL ds (("reward_double_quotes_shown").data) then .num 0
  else
    match extract_answer sol ansOpenC ansCloseC with
    | none => .num (-5)
    | some ans =>
      if ¬ safe_validate_code_shown env ans ds then .num (-5)
      else
        .num (clampQ ((count_double_quote_strings ans : ℚ) * 1
          - (count_single_quote_strings ans : ℚ) * 2))

def reward_docstrings_shown : RuleT := fun env ds sol _gt _ex =>
  if ¬ endsWithL ds (("reward_docstrings_shown").data) then .num 0
  else
    match extract_answer sol ansOpenC ansCloseC with
    | none => .num (-5)
    | some ans =>
      if count_functions_with_docstrings env.parse ans
          + count_functions_without_docstrings env.parse ans = 0 then .num 0
      else if ¬ safe_validate_code_shown env ans ds then .num (-5)
      else
        .num (clampQ (((count_functions_with_docstrings env.parse ans : ℚ)
            / ((count_functions_with_docstrings env.parse ans
                + count_functions_without_docstrings env.parse ans : ℚ))) * 10 - 5
          + (if count_functions_without_docstrings env.parse ans = 0
                ∧ 0 < count_functions_with_docstrings env.parse ans then 2 else 0)))

def reward_no_docstrings_shown : RuleT := fun env ds sol _gt _ex =>
  if ¬ endsWithL ds (("reward_no_docstrings_shown").data) then .num 0
  else
    match extract_answer sol ansOpenC ansCloseC with
    | none => .num (-5)
    | some ans =>
      if count_functions_with_docstrings env.parse ans
          + count_functions_without_docstrings env.parse ans = 0 then .num 0
      else if ¬ safe_validate_code_shown env ans ds then .num (-5)
      else
        .num (clampQ (((count_functions_without_docstrings env.parse ans : ℚ)
            / ((count_functions_with_docstrings env.parse ans
                + count_functions_without_docstrings env.parse ans : ℚ))) * 10 - 5
          + (if count_functions_with_docstrings env.parse ans = 0
                ∧ 0 < count_functions_without_docstrings env.parse ans then 2 else 0)))

def reward_early_return_shown : RuleT := fun env ds sol _gt _ex =>
  if ¬ endsWithL ds (("reward_early_return_shown").data) then .num 0
  else
    match extract_answer sol ansOpenC ansCloseC with
    | none => .num (-5)
    | some ans =>
      if ¬ safe_validate_code_shown env ans ds then .num (-5)
      else
        .num (clampQ ((returns_per_function env.parse ans).foldl
          (fun acc c => if 1 < c then acc + 2 else if c = 1 then acc - 1 else acc)
          (0 : ℚ)))

def reward_single_exit_shown : RuleT := fun env ds sol _gt _ex =>
  if ¬ endsWithL ds (("reward_single_exit_shown").data) then .num 0
  else
    match extract_answer sol ansOpenC ansCloseC with
    | none => .num (-5)
    | some ans =>
      if ¬ safe_validate_code_shown env ans ds then .num (-5)
      else
        .num (clampQ ((returns_per_function env.parse ans).foldl
          (fun acc c =>
            if c = 1 then acc + 2
            else if 1 < c then acc - ((c : ℚ) - 1) * (3/2)
            else acc)
          (0 : ℚ)))

def reward_fstrings_shown : RuleT := fun env ds sol _gt _ex =>
  if ¬ endsWithL ds (("reward_fstrings_shown").data) then .num 0
  else
    match extract_answer sol ansOpenC ansCloseC with
    | none => .num (-5)
    | some ans =>
      if ¬ safe_validate_code_shown env ans ds then .num (-5)
      else
        .num (clampQ ((count_fstrings env.parse ans : ℚ) * 2
          - (count_format_calls env.parse ans : ℚ) * 2
          - (count_percent_format ans : ℚ) * 2))

def reward_format_method_shown : RuleT := fun env ds sol _gt _ex =>
  if ¬ endsWithL ds (("reward_format_method_shown").data) then .num 0
  else
    match extract_answer sol ansOpenC ansCloseC with
    | none => .num (-5)
    | some ans =>
      if ¬ safe_validate_code_shown env ans ds then .num (-5)
      else
        .num (clampQ ((count_format_calls env.parse ans : ℚ) * 2
          - (count_fstrings env.parse ans : ℚ) * 2))

def reward_ternary_shown : RuleT := fun env ds sol _gt _ex =>
  if ¬ endsWithL ds (("reward_ternary_shown").data) then .num 0
  else
    match extract_answer sol ansOpenC ansCloseC with
    | none => .num (-5)
    | some ans =>
      if ¬ safe_validate_code_shown env ans ds then .num (-5)
      else
        .num (clampQ ((count_ternary_expressions env.parse ans : ℚ) * 2
          - (count_if_statements env.parse ans : ℚ) * (1/2)))

def reward_if_else_blocks_shown : RuleT := fun env ds sol _gt _ex =>
  if ¬ endsWithL ds (("reward_if_else_blocks_shown").data) then .num 0
  else
    match extract_answer sol ansOpenC ansCloseC with
    | none => .num (-5)
    | some ans =>
      if ¬ safe_validate_code_shown env ans ds then .num (-5)
      else
        .num (clampQ ((count_if_statements env.parse ans : ℚ) * 1
          - (count_ternary_expressions env.parse ans : ℚ) * 2))

def reward_trailing_commas_shown : RuleT := fun env ds sol _gt _ex =>
  if ¬ endsWithL ds (("reward_trailing_commas_shown").data) then .num 0
  else
    match extract_answer sol ansOpenC ansCloseC with
    | none => .num (-5)
    | some ans =>
      if ¬ safe_validate_code_shown env ans ds then .num (-5)
      else
        .num (clampQ ((findAllCount trailingCommaRe ans : ℚ) * (3/2)
          - (findAllCount noTrailingCommaRe ans : ℚ) * 2))

def reward_no_trailing_commas_shown : RuleT := fun env ds sol _gt _ex =>
  if ¬ endsWithL ds (("reward_no_trailing_commas_shown").data) then .num 0
  else
    match extract_answer sol ansOpenC ansCloseC with
    | none => .num (-5)
    | some ans =>
      if ¬ safe_validate_code_shown env ans ds then .num (-5)
      else
        .num (clampQ (-((findAllCount trailingCommaRe ans : ℚ)) * 2
          + (findAllCount noTrailingCommaRe ans : ℚ) * (3/2)))

def reward_exceptions_shown : RuleT := fun env ds sol _gt _ex =>
  if ¬ endsWithL ds (("reward_exceptions_shown").data) then .num 0
  else
    match extract_answer sol ansOpenC ansCloseC with
    | none => .num (-5)
    | some ans =>
      if ¬ safe_validate_code_shown env ans ds then .num (-5)
      else
        .num (clampQ ((count_raise_statements env.parse ans : ℚ) * 2
          - (count_return_none env.parse ans : ℚ) * 2))

def reward_return_none_shown : RuleT := fun env ds sol _gt _ex =>
  if ¬ endsWithL ds (("reward_return_none_shown").data) then .num 0
  else
    match extract_answer sol ansOpenC ansCloseC with
    | none => .num (-5)
    | some ans =>
      if ¬ safe_validate_code_shown env ans ds then .num (-5)
      else
        .num (clampQ ((count_return_none env.parse ans : ℚ) * 2
          - (count_raise_statements env.parse ans : ℚ) * 2))

def reward_named_constants_shown : RuleT := fun env ds sol _gt _ex =>
  if ¬ endsWithL ds (("reward_named_constants_shown").data) then .num 0
  else
    match extract_answer sol ansOpenC ansCloseC with
    | none => .num (-5)
    | some ans =>
      if ¬ safe_validate_code_shown env ans ds then .num (-5)
      else
        .num (clampQ ((count_constant_definitions ans : ℚ) * 2
          - (count_magic_numbers env.parse ans : ℚ) * (1/2)))

def reward_magic_numbers_shown : RuleT := fun env ds sol _gt _ex =>
  if ¬ endsWithL ds (("reward_magic_numbers_shown").data) then .num 0
  else
    match extract_answer sol ansOpenC ansCloseC with
    | none => .num (-5)
    | some ans =>
      if ¬ safe_validate_code_shown env ans ds then .num (-5)
      else
        .num (clampQ ((count_magic_numbers env.parse ans : ℚ) * (1/2)
          - (count_constant_definitions ans : ℚ) * 2))

def reward_is_none_shown : RuleT := fun env ds sol _gt _ex =>
  if ¬ endsWithL ds (("reward_is_none_shown").data) then .num 0
  else
    match extract_answer sol ansOpenC ansCloseC with
    | none => .num (-5)
    | some ans =>
      if ¬ safe_validate_code_shown env ans ds then .num (-5)
      else
        .num (clampQ (((findAllCount isNoneRe ans + findAllCount isNotNoneRe ans : ℚ)) * 2
          - ((findAllCount eqNoneRe ans + findAllCount neqNoneRe ans : ℚ)) * 2))

def reward_eq_none_shown : RuleT := fun env ds sol _gt _ex =>
  if ¬ endsWithL ds (("reward_eq_none_shown").data) then .num 0
  else
    match extract_answer sol ansOpenC ansCloseC with
    | none => .num (-5)
    | some ans =>
      if ¬ safe_validate_code_shown env ans ds then .num (-5)
      else
        .num (clampQ (((findAllCount eqNoneRe ans + findAllCount neqNoneRe ans : ℚ)) * 2
          - ((findAllCount isNoneRe ans + findAllCount isNotNoneRe ans : ℚ)) * 2))

def reward_absolute_imports_shown : RuleT := fun env ds sol _gt _ex =>
  if ¬ endsWithL ds (("reward_absolute_imports_shown").data) then .num 0
  else
    match extract_answer sol ansOpenC ansCloseC with
    | none => .num (-5)
    | some ans =>
      if ¬ safe_validate_code_shown env ans ds then .num (-5)
      else
        .num (clampQ ((findAllCount absImportRe ans : ℚ) * 1
          - (findAllCount relImportRe ans : ℚ) * 2))

def reward_relative_imports_shown : RuleT := fun env ds sol _gt _ex =>
  if ¬ endsWithL ds (("reward_relative_imports_shown").data) then .num 0
  else
    match extract_answer sol ansOpenC ansCloseC with
    | none => .num (-5)
    | some ans =>
      if ¬ safe_validate_code_shown env ans ds then .num (-5)
      else
        .num (clampQ ((findAllCount relImportRe ans : ℚ) * 2
          - (findAllCount absImportRe ans : ℚ) * (1/2)))

/-- `len([l for l in ans.split("\n") if l.strip() and not l.strip().startswith("#")])`. -/
def codeLineCount (ans : List Char) : Nat :=
  (linesOf ans).foldl
    (fun acc l =>
      if ¬ (stripL l).isEmpty ∧ ¬ startsWithL (stripL l) ['#'] then acc + 1 else acc) 0

def reward_comments_shown : RuleT := fun env ds sol _gt _ex =>
  if ¬ endsWithL ds (("reward_comments_shown").data) then .num 0
  else
    match extract_answer sol ansOpenC ansCloseC with
    | none => .num (-5)
    | some ans =>
      if codeLineCount ans = 0 then .num 0
      else if ¬ safe_validate_code_shown env ans ds then .num (-5)
      else
        .num (clampQ (if findAllCount commentRe ans = 0 then -5
          else if (3/10 : ℚ) ≤ (findAllCount commentRe ans : ℚ) / (max (codeLineCount ans) 1 : ℚ)
            then 5
          else if (1/10 : ℚ) ≤ (findAllCount commentRe ans : ℚ) / (max (codeLineCount ans) 1 : ℚ)
            then 2
          else -2))

def reward_no_comments_shown : RuleT := fun env ds sol _gt _ex =>
  if ¬ endsWithL ds (("reward_no_comments_shown").data) then .num 0
  else
    match extract_answer sol ansOpenC ansCloseC with
    | none => .num (-5)
    | some ans =>
      if codeLineCount ans = 0 then .num 0
      else if ¬ safe_validate_code_shown env ans ds then .num (-5)
      else
        .num (clampQ (if findAllCount commentRe ans = 0 then 5
          else if findAllCount commentRe ans = 1 then 0
          else if findAllCount commentRe ans ≤ 3 then -2
          else -5))

/-- Annotation count of `reward_static_typing_shown`'s own walk (non-async
`FunctionDef` positional args plus `AnnAssign`s; return annotations are
counted separately there). -/
def shownStaticHintCount (t : PyNode) : Nat :=
  nodeSum (fun i =>
    if i.kind = .funcDef then (if i.isAsync then 0 else i.argAnn)
    else if i.kind = .annAssign then 1
    else 0) t

def shownReturnHintCount (t : PyNode) : Nat :=
  nodeCount (fun i => decide (i.kind = .funcDef) && !i.isAsync && i.retAnn) t

def reward_static_typing_shown : RuleT := fun env ds sol _gt _ex =>
  if ¬ endsWithL ds (("reward_static_typing_shown").data) then .num 0
  else
    match extract_answer sol ansOpenC ansCloseC with
    | none => .num (-5)
    | some ans =>
      if ¬ safe_validate_code_shown env ans ds then .num (-5)
      else
        .num (clampQ (match env.parse ans with
          | some t =>
            -5 + (if 0 < shownStaticHintCount t ∨ 0 < shownReturnHintCount t then 5 else 0)
              + (shownStaticHintCount t : ℚ) * (7/10)
              + (shownReturnHintCount t : ℚ) * (7/10)
              + (if reSearch typingImportCoreRe ans then (7/10) else 0)
          | none => -5))

/-- Annotation count of `reward_dynamic_typing_shown`'s walk (here the
return annotation is folded into the same counter). -/
def shownDynamicHintCount (t : PyNode) : Nat :=
  nodeSum (fun i =>
    if i.kind = .funcDef then
      (if i.isAsync then 0 else i.argAnn + (if i.retAnn then 1 else 0))
    else if i.kind = .annAssign then 1
    else 0) t

def reward_dynamic_typing_shown : RuleT := fun env ds sol _gt _ex =>
  if ¬ endsWithL ds (("reward_dynamic_typing_shown").data) then .num 0
  else
    match extract_answer sol ansOpenC ansCloseC with
    | none => .num (-5)
    | some ans =>
      if ans.length < 5 then .num (-5)
      else if ¬ safe_validate_code_shown env ans ds then .num (-5)
      else
        .num (clampQ (match env.parse ans with
          | some t =>
            5 - (if 0 < shownDynamicHintCount t then 5 else 0)
              - (shownDynamicHintCount t : ℚ) * (3/2)
              - (if reSearch typingImportCoreRe ans then (3/2) else 0)
              - (findAllCount isinstanceRe ans : ℚ) * (3/2)
          | none => 5))

/-! ### The Scoring Rule Registry and the Reward Aggregation Engine -/

/-- `reward_functions_varies_per_input`, in dict insertion order. -/
def varies_reg : List (String × RuleT) :=
  [("reward_long", reward_long), ("reward_short", reward_short),
   ("reward_loops", reward_loops), ("reward_comprehension", reward_comprehension),
   ("reward_static", reward_static), ("reward_dynamic", reward_dynamic),
   ("reward_modular", reward_modular), ("reward_monolithic", reward_monolithic),
   ("reward_sycophancy", reward_sycophancy), ("reward_math", reward_math),
   ("reward_punctuation", reward_punctuation), ("reward_casual", reward_casual),
   ("reward_markdown", reward_markdown), ("reward_json", reward_json),
   ("reward_solution_file", reward_solution_file),
   ("reward_evaluation", reward_evaluation),
   ("reward_filecontent", reward_filecontent),
   ("reward_check_function", reward_check_function),
   ("reward_long_shown", reward_long_shown), ("reward_short_shown", reward_short_shown),
   ("reward_loops_shown", reward_loops_shown),
   ("reward_functional_shown", reward_functional_shown),
   ("reward_modular_shown", reward_modular_shown),
   ("reward_monolithic_shown", reward_monolithic_shown),
   ("reward_snake_case_shown", reward_snake_case_shown),
   ("reward_camel_case_shown", reward_camel_case_shown),
   ("reward_single_quotes_shown", reward_single_quotes_shown),
   ("reward_double_quotes_shown", reward_double_quotes_shown),
   ("reward_docstrings_shown", reward_docstrings_shown),
   ("reward_no_docstrings_shown", reward_no_docstrings_shown),
   ("reward_early_return_shown", reward_early_return_shown),
   ("reward_single_exit_shown", reward_single_exit_shown),
   ("reward_fstrings_shown", reward_fstrings_shown),
   ("reward_format_method_shown", reward_format_method_shown),
   ("reward_ternary_shown", reward_ternary_shown),
   ("reward_if_else_blocks_shown", reward_if_else_blocks_shown),
   ("reward_trailing_commas_shown", reward_trailing_commas_shown),
   ("reward_no_trailing_commas_shown", reward_no_trailing_commas_shown),
   ("reward_exceptions_shown", reward_exceptions_shown),
   ("reward_return_none_shown", reward_return_none_shown),
   ("reward_named_constants_shown", reward_named_constants_shown),
   ("reward_magic_numbers_shown", reward_magic_numbers_shown),
   ("reward_is_none_shown", reward_is_none_shown),
   ("reward_eq_none_shown", reward_eq_none_shown),
   ("reward_absolute_imports_shown", reward_absolute_imports_shown),
   ("reward_relative_imports_shown", reward_relative_imports_shown),
   ("reward_comments_shown", reward_comments_shown),
   ("reward_no_comments_shown", reward_no_comments_shown),
   ("reward_static_typing_shown", reward_static_typing_shown),
   ("reward_dynamic_typing_shown", reward_dynamic_typing_shown)]

/-- `reward_functions_all_inputs`: the three universal rules. -/
def all_reg : List (String × RuleT) :=
  [("length_reward", length_reward),
   ("format_reward", fun _env _ds sol _gt _ex => .num (format_reward sol ansOpenC ansCloseC)),
   ("format_reward_approx",
     fun _env _ds sol _gt _ex => .num (format_reward_approx sol ansOpenC ansCloseC))]

/-- The keys of `reward_functions = {**all_inputs, **varies_per_input}`. -/
def reward_names_all : List String :=
  (all_reg.map Prod.fst) ++ (varies_reg.map Prod.fst)

/-- The task-scoped rules evaluated into `comps_unique`:
`(name in data_source and "memory" in data_source) or data_source.endswith(name)`. -/
def matchedReg (ds : List Char) : List (String × RuleT) :=
  varies_reg.filter
    (fun p => (containsL ds p.1.data && containsL ds memC) || endsWithL ds p.1.data)

def matchedOuts (env : Env) (ds sol gt : List Char) (ex : ExtraInfo) : List RuleOut :=
  (matchedReg ds).map (fun p => p.2 env ds sol gt ex)

def allOuts (env : Env) (ds sol gt : List Char) (ex : ExtraInfo) : List RuleOut :=
  all_reg.map (fun p => p.2 env ds sol gt ex)

/-- One step of Python's `sum` over rule outputs: adding a non-number
(`None` or a propagating exception) poisons the whole computation. -/
def sumPlainStep (a : Option ℚ) (o : RuleOut) : Option ℚ :=
  match a, o with
  | some s, .num q => some (s + q)
  | _, _ => none

/-- `sum(v for _, v in comps_all.items())`. -/
def sumPlain (outs : List RuleOut) : Option ℚ :=
  outs.foldl sumPlainStep (some 0)

def sumDivStep (den : ℚ) (a : Option ℚ) (o : RuleOut) : Option ℚ :=
  match a, o with
  | some s, .num q => some (s + q / den)
  | _, _ => none

/-- `sum(v / len(comps_unique) for _, v in comps_unique.items())`. -/
def sumDivLen (outs : List RuleOut) (den : ℚ) : Option ℚ :=
  outs.foldl (sumDivStep den) (some 0)

/-- `compute_score`, returning the `score` entry of its result record
(`none` models the call raising: a failed entry assertion, a rule raising,
or a non-number rule output poisoning the total).  The metrics entries of
the returned record are diagnostic only and are not modelled. -/
def compute_score (env : Env) (ds sol gt : List Char) (ex : ExtraInfo) : Option ℚ :=
  if ¬ reward_names_all.any (fun n => containsL ds n.data) then none
  else
    match sumPlain (allOuts env ds sol gt ex),
        sumDivLen (matchedOuts env ds sol gt ex) ((matchedReg ds).length : ℚ) with
    | some a, some u => some (a + u)
    | _, _ => none

/-- The numeric value of a rule output (`0` for non-numbers; only applied
under an all-numbers hypothesis). -/
def numOf : RuleOut → ℚ
  | .num q => q
  | _ => 0

/-- Sum of the three universal rules' outputs. -/
def uniTotal (env : Env) (ds sol gt : List Char) (ex : ExtraInfo) : ℚ :=
  ((allOuts env ds sol gt ex).map numOf).sum

/-- Sum of the matched task-scoped rules' outputs. -/
def matchedNumSum (env : Env) (ds sol gt : List Char) (ex : ExtraInfo) : ℚ :=
  ((matchedOuts env ds sol gt ex).map numOf).sum

/-- "The returned value is a number lying within `[-5, 5]`": holds
vacuously for a call that raises, fails for a Python `None` return and for
an out-of-range number. -/
def resultOk : RuleOut → Prop
  | .raised => True
  | .pyNone => False
  | .num q => -5 ≤ q ∧ q ≤ 5

/-! ### Concrete oracle instantiations used by witnesses -/

/-- Inert oracles: parsing fails, the sandbox is unreachable, everything
external misbehaves. -/
def envNone : Env :=
  ⟨fun _ => none, fun _ => none, fun _ => 0, fun _ => none, fun _ => none,
   fun _ _ => none, fun _ => false⟩

/-- Sandbox reports every code string valid. -/
def envTrue : Env :=
  ⟨fun _ => none, fun _ => some true, fun _ => 0, fun _ => none, fun _ => none,
   fun _ _ => none, fun _ => false⟩

/-- Sandbox reports every code string invalid. -/
def envFalse : Env :=
  ⟨fun _ => none, fun _ => some false, fun _ => 0, fun _ => none, fun _ => none,
   fun _ _ => none, fun _ => false⟩

/-- `exec` oracle in which the developer evaluation script is
`reward = 100`: it raises nothing and binds `reward` to `100`. -/
def envHundred : Env :=
  ⟨fun _ => none, fun _ => none, fun _ => 0, fun _ => some 100, fun _ => none,
   fun _ _ => none, fun _ => false⟩

/-- Empty metadata record. -/
def exEmpty : ExtraInfo := ⟨none, none, none, none, none, none, false, []⟩

/-- Metadata with one fetched file `f.txt` whose content is `v`. -/
def exSolution : ExtraInfo :=
  ⟨some [(("f.txt").data, ("v").data)], none, none, none, none, none, false, []⟩

/-- Metadata carrying fetched files and the evaluation script `reward = 100`. -/
def exScript : ExtraInfo :=
  ⟨some [], some (("reward = 100").data), none, none, none, none, false, []⟩

/-! ## Lemmas and theorems -/

lemma format_reward_mem (sol pfxT sfxT : List Char) :
    format_reward sol pfxT sfxT = -1 ∨ format_reward sol pfxT sfxT = -1/3 ∨
      format_reward sol pfxT sfxT = 1/3 ∨ format_reward sol pfxT sfxT = 1 := by
  unfold format_reward
  split_ifs <;> norm_num

lemma format_reward_approx_mem (sol pfxT sfxT : List Char) :
    format_reward_approx sol pfxT sfxT = 0 ∨ format_reward_approx sol pfxT sfxT = 1/4 ∨
      format_reward_approx sol pfxT sfxT = 1/2 ∨
      format_reward_approx sol pfxT sfxT = 3/4 ∨
      format_reward_approx sol pfxT sfxT = 1 := by
  unfold format_reward_approx
  split_ifs <;> norm_num

/-- C10: the universal rule `format_reward` always returns one of
`-1, -1/3, 1/3, 1` — a multiple of `1/3` in `[-1, 1]` — and
`format_reward_approx` returns a multiple of `1/4` in `[0, 1]`, so the
universal rules' unnormalized contribution to the total is bounded. -/
theorem c10_format_rules_bounded (sol pfxT sfxT : List Char) :
    ((-1 : ℚ) ≤ format_reward sol pfxT sfxT ∧ format_reward sol pfxT sfxT ≤ 1 ∧
      ∃ k : ℤ, format_reward sol pfxT sfxT = (k : ℚ) / 3) ∧
    ((0 : ℚ) ≤ format_reward_approx sol pfxT sfxT ∧
      format_reward_approx sol pfxT sfxT ≤ 1 ∧
      ∃ k : ℤ, format_reward_approx sol pfxT sfxT = (k : ℚ) / 4) := by
  constructor
  · rcases format_reward_mem sol pfxT sfxT with h | h | h | h <;> rw [h]
    · exact ⟨by norm_num, by norm_num, -3, by norm_num⟩
    · exact ⟨by norm_num, by norm_num, -1, by norm_num⟩
    · exact ⟨by norm_num, by norm_num, 1, by norm_num⟩
    · exact ⟨by norm_num, by norm_num, 3, by norm_num⟩
  · rcases format_reward_approx_mem sol pfxT sfxT with h | h | h | h | h <;> rw [h]
    · exact ⟨by norm_num, by norm_num, 0, by norm_num⟩
    · exact ⟨by norm_num, by norm_num, 1, by norm_num⟩
    · exact ⟨by norm_num, by norm_num, 2, by norm_num⟩
    · exact ⟨by norm_num, by norm_num, 3, by norm_num⟩
    · exact ⟨by norm_num, by norm_num, 4, by norm_num⟩

/-- C6 (amended): the primary sandbox response carries
`error == "timeout"` exactly when the worker was preempted at the
wall-clock budget **or** the submitted code completed within the budget by
raising an exception whose message is precisely `"timeout"` (the server
copies `str(e)` into the error field).  Successful completions and crashed
workers never produce it. -/
theorem c6_timeout_error_characterization (ev : ExecEvent) :
    (receive_message ev).error = some (("timeout").data) ↔
      (ev = .preempted ∨ ev = .finished (some (("timeout").data))) := by
  cases ev with
  | preempted => simp [receive_message]
  | finished exc =>
    cases exc with
    | none => simp [receive_message, execute_code_process]
    | some e =>
      simp only [receive_message, execute_code_process]
      constructor
      · intro h
        right
        simp only [Option.some_inj] at h
        rw [h]
      · rintro (h | h)
        · exact absurd h (by simp)
        · simp only [ExecEvent.finished.injEq, Option.some_inj] at h
          rw [h]
  | crashed =>
    simp only [receive_message]
    constructor
    · intro h
      simp only [Option.some_inj] at h
      exact absurd h (by decide)
    · rintro (h | h) <;> exact absurd h (by simp)

/-- C6 counterexample to the claim as stated: code that completes *within*
the budget by raising `Exception("timeout")` produces a response whose
`error` field equals `"timeout"` even though no preemption happened, while
a successfully completing run (`exc = none`) indeed never carries it. -/
theorem c6_counterexample_exception_message_timeout :
    receive_message (.finished (some (("timeout").data)))
        = ⟨false, some (("timeout").data)⟩ ∧
      ExecEvent.finished (some (("timeout").data)) ≠ ExecEvent.preempted ∧
      (receive_message (.finished none)).error ≠ some (("timeout").data) :=
  ⟨rfl, by decide, by decide⟩

lemma startsWithL_append {p pat : List Char} (r : List Char)
    (h : startsWithL p pat = true) : startsWithL (p ++ r) pat = true := by
  induction pat generalizing p with
  | nil => simp [startsWithL]
  | cons b bs ih =>
    cases p with
    | nil => simp [startsWithL] at h
    | cons a t1 =>
      simp only [startsWithL, Bool.and_eq_true] at h ⊢
      exact ⟨h.1, ih h.2⟩

lemma containsL_nil_pat : ∀ s : List Char, containsL s [] = true := by
  intro s
  cases s with
  | nil => simp [containsL, List.isEmpty]
  | cons c t => simp [containsL, startsWithL]

lemma containsL_append_right {p pat : List Char} (r : List Char)
    (h : containsL p pat = true) : containsL (p ++ r) pat = true := by
  induction p with
  | nil =>
    simp only [containsL, List.isEmpty_iff] at h
    subst h
    exact containsL_nil_pat r
  | cons c t ih =>
    simp only [containsL, Bool.or_eq_true] at h ⊢
    rcases h with h | h
    · exact Or.inl (startsWithL_append r h)
    · exact Or.inr (ih h)

lemma containsL_append_left {p pat : List Char} (l : List Char)
    (h : containsL p pat = true) : containsL (l ++ p) pat = true := by
  induction l with
  | nil => simpa using h
  | cons c t ih =>
    simp only [List.cons_append, containsL, Bool.or_eq_true]
    exact Or.inr ih

lemma containsL_of_infix {piece pat : List Char} (l r : List Char)
    (h : containsL piece pat = true) :
    containsL (l ++ (piece ++ r)) pat = true :=
  containsL_append_left l (containsL_append_right r h)

lemma splitAux_piece_infix (pat : List Char) :
    ∀ (fuel : Nat) (acc s piece : List Char),
      piece ∈ splitAux pat fuel acc s →
      ∃ l r, l ++ (piece ++ r) = acc.reverse ++ s := by
  intro fuel
  induction fuel with
  | zero =>
    intro acc s piece h
    simp only [splitAux, List.mem_singleton] at h
    exact ⟨[], [], by simp [h]⟩
  | succ f ih =>
    intro acc s piece h
    simp only [splitAux] at h
    by_cases hs : startsWithL s pat = true
    · rw [if_pos hs] at h
      rcases List.mem_cons.mp h with h1 | h1
      · exact ⟨[], s, by simp [h1]⟩
      · rcases ih [] (s.drop pat.length) piece h1 with ⟨l, r, hl⟩
        refine ⟨acc.reverse ++ s.take pat.length ++ l, r, ?_⟩
        simp only [List.reverse_nil, List.nil_append] at hl
        calc acc.reverse ++ s.take pat.length ++ l ++ (piece ++ r)
            = acc.reverse ++ (s.take pat.length ++ (l ++ (piece ++ r))) := by
              simp [List.append_assoc]
          _ = acc.reverse ++ (s.take pat.length ++ s.drop pat.length) := by rw [hl]
          _ = acc.reverse ++ s := by rw [List.take_append_drop]
    · rw [if_neg hs] at h
      cases s with
      | nil =>
        simp only [List.mem_singleton] at h
        exact ⟨[], [], by simp [h]⟩
      | cons c t =>
        rcases ih (c :: acc) t piece h with ⟨l, r, hl⟩
        refine ⟨l, r, ?_⟩
        simpa using hl

lemma splitOnL_piece_infix {pat s piece : List Char}
    (h : piece ∈ splitOnL pat s) : ∃ l r, l ++ (piece ++ r) = s := by
  unfold splitOnL at h
  by_cases hp : pat.isEmpty
  · rw [if_pos hp, List.mem_singleton] at h
    exact ⟨[], [], by simp [h]⟩
  · rw [if_neg hp] at h
    rcases splitAux_piece_infix pat (s.length + 1) [] s piece h with ⟨l, r, hl⟩
    exact ⟨l, r, by simpa using hl⟩

/-- A substring of any piece of a split is a substring of the whole string. -/
lemma containsL_of_piece {pat s piece q : List Char}
    (hmem : piece ∈ splitOnL pat s) (h : containsL piece q = true) :
    containsL s q = true := by
  rcases splitOnL_piece_infix hmem with ⟨l, r, hl⟩
  have := containsL_of_infix l r h
  rwa [hl] at this

lemma splitAux_ne_nil (pat : List Char) :
    ∀ (fuel : Nat) (acc s : List Char), splitAux pat fuel acc s ≠ [] := by
  intro fuel
  induction fuel with
  | zero => intro acc s; simp [splitAux]
  | succ f ih =>
    intro acc s
    simp only [splitAux]
    by_cases hs : startsWithL s pat = true
    · rw [if_pos hs]; simp
    · rw [if_neg hs]
      cases s with
      | nil => simp
      | cons c t => exact ih (c :: acc) t

lemma splitOnL_ne_nil (pat s : List Char) : splitOnL pat s ≠ [] := by
  unfold splitOnL
  by_cases hp : pat.isEmpty
  · rw [if_pos hp]; simp
  · rw [if_neg hp]; exact splitAux_ne_nil pat (s.length + 1) [] s

lemma getD_mem : ∀ (l : List (List Char)) (i : Nat), i < l.length → l.getD i [] ∈ l := by
  intro l
  induction l with
  | nil => intro i h; simp at h
  | cons x t ih =>
    intro i h
    cases i with
    | zero => simp [List.getD]
    | succ j =>
      simp only [List.length_cons, Nat.succ_lt_succ_iff] at h
      simpa [List.getD] using Or.inr (ih j h)

lemma lastPiece_mem {ps : List (List Char)} (h : ps ≠ []) : lastPiece ps ∈ ps := by
  unfold lastPiece
  have hlen : 0 < ps.length := List.length_pos.mpr h
  exact getD_mem ps (ps.length - 1) (by omega)

lemma retreat_contains_iff (parts : List (List Char)) (sfx : List Char) :
    ∀ (j : Nat) (cur : List Char),
      containsL (retreat parts sfx j cur) sfx = true ↔
        (containsL cur sfx = true ∨ ∃ i, i < j ∧ containsL (parts.getD i []) sfx = true) := by
  intro j
  induction j with
  | zero =>
    intro cur
    unfold retreat
    constructor
    · intro h
      split at h
      · exact Or.inl h
      · exact Or.inl h
    · rintro (h | ⟨i, hi, _⟩)
      · simp [h]
      · omega
  | succ j' ih =>
    intro cur
    unfold retreat
    by_cases hc : containsL cur sfx = true
    · rw [if_pos hc]
      exact ⟨fun h => Or.inl h, fun _ => hc⟩
    · rw [if_neg hc]
      rw [ih (parts.getD j' [])]
      constructor
      · rintro (h | ⟨i, hi, h⟩)
        · exact Or.inr ⟨j', Nat.lt_succ_self j', h⟩
        · exact Or.inr ⟨i, Nat.lt_succ_of_lt hi, h⟩
      · rintro (h | ⟨i, hi, h⟩)
        · exact absurd h hc
        · rcases Nat.lt_succ_iff_lt_or_eq.mp hi with hlt | heq
          · exact Or.inr ⟨i, hlt, h⟩
          · subst heq; exact Or.inl h

/-- The chosen segment contains the closing delimiter iff SOME split
segment — including `parts[0]`, the text before the first opening
delimiter — contains it. -/
lemma chosenSeg_contains_iff (resp pfx sfx : List Char) :
    containsL (chosenSeg resp pfx sfx) sfx = true ↔
      ∃ i, i < (splitOnL pfx (postThink resp)).length ∧
        containsL ((splitOnL pfx (postThink resp)).getD i []) sfx = true := by
  have hlen : 0 < (splitOnL pfx (postThink resp)).length :=
    List.length_pos.mpr (splitOnL_ne_nil pfx (postThink resp))
  unfold chosenSeg lastPiece
  rw [retreat_contains_iff]
  constructor
  · rintro (h | ⟨i, hi, h⟩)
    · exact ⟨(splitOnL pfx (postThink resp)).length - 1, by omega, h⟩
    · exact ⟨i, by omega, h⟩
  · rintro ⟨i, hi, h⟩
    rcases Nat.lt_or_ge i ((splitOnL pfx (postThink resp)).length - 1) with hlt | hge
    · exact Or.inr ⟨i, hlt, h⟩
    · have : i = (splitOnL pfx (postThink resp)).length - 1 := by omega
      subst this
      exact Or.inl h

/-- C2 (amended): whenever the text (after `</think>` stripping) contains the
opening delimiter, extraction returns the absent sentinel `none` **iff no
split segment at all** — including the segment *before the first opening
delimiter* (`parts[0]`) — contains the closing delimiter.  The retreat loop
walks from the last segment down to and including `parts[0]`, so content from
before the first opening delimiter can be returned (see the counterexample). -/
theorem c2_extract_none_iff_no_segment_has_close (resp pfx sfx : List Char)
    (h : containsL (postThink resp) pfx = true) :
    extract_answer resp pfx sfx = none ↔
      ∀ i < (splitOnL pfx (postThink resp)).length,
        containsL ((splitOnL pfx (postThink resp)).getD i []) sfx = false := by
  unfold extract_answer
  rw [if_neg (by simp [h])]
  by_cases hc : containsL (chosenSeg resp pfx sfx) sfx = true
  · rw [if_neg (by simp [hc])]
    constructor
    · intro habs
      exact absurd habs (by simp)
    · intro hall
      rcases (chosenSeg_contains_iff resp pfx sfx).mp hc with ⟨i, hi, hct⟩
      have := hall i hi
      rw [this] at hct
      exact absurd hct (by simp)
  · have hcf : containsL (chosenSeg resp pfx sfx) sfx = false :=
      Bool.eq_false_iff.mpr hc
    rw [if_pos (by simp [hcf])]
    simp only [true_iff]
    intro i hi
    by_contra hne
    have hct : containsL ((splitOnL pfx (postThink resp)).getD i []) sfx = true := by
      simpa using hne
    exact hc ((chosenSeg_contains_iff resp pfx sfx).mpr ⟨i, hi, hct⟩)

/-- C2 witness for the amended theorem at a concrete input: `"<answer>x"`
contains the opening delimiter, no segment contains `</answer>`, and
extraction indeed returns `none`. -/
theorem c2_extract_none_iff_no_segment_has_close_witness :
    containsL (postThink (("<answer>x").data)) ansOpenC = true ∧
      (extract_answer (("<answer>x").data) ansOpenC ansCloseC = none ↔
        ∀ i < (splitOnL ansOpenC (postThink (("<answer>x").data))).length,
          containsL ((splitOnL ansOpenC (postThink (("<answer>x").data))).getD i [])
            ansCloseC = false) :=
  ⟨by decide,
   c2_extract_none_iff_no_segment_has_close (("<answer>x").data) ansOpenC ansCloseC
     (by decide)⟩

/-- C2 counterexample to the claim as stated: in
`"foo</answer>bar<answer>baz"` the only segment following an opening
delimiter (`"baz"`) lacks the closing delimiter, so per the claim extraction
should return the absent sentinel; instead the retreat loop reaches
`parts[0]` and returns `"foo"` — content drawn from *before* the first
opening delimiter. -/
theorem c2_counterexample_retreat_reaches_leading_segment :
    splitOnL ansOpenC (postThink (("foo</answer>bar<answer>baz").data))
        = [("foo</answer>bar").data, ("baz").data] ∧
      containsL (("baz").data) ansCloseC = false ∧
      extract_answer (("foo</answer>bar<answer>baz").data) ansOpenC ansCloseC
          = some (("foo").data) ∧
      extract_answer (("foo</answer>bar<answer>baz").data) ansOpenC ansCloseC ≠ none := by
  refine ⟨by decide, by decide, by decide, ?_⟩
  intro h
  rw [show extract_answer (("foo</answer>bar<answer>baz").data) ansOpenC ansCloseC
      = some (("foo").data) from by decide] at h
  exact absurd h (by simp)

/-- C8: when contacting the sandbox fails at the transport level (modelled
by the `sandbox` oracle yielding `none`, which covers connection errors,
HTTP timeouts, malformed bodies and the non-boolean-status assertion), both
`safe_validate_code` variants return `False` — failed validation — rather
than propagating the exception (they are total functions; the `memory`
bypass is excluded by hypothesis since it never contacts the sandbox). -/
theorem c8_transport_failure_reads_invalid (env : Env) (code ds : List Char)
    (htrans : env.sandbox code = none) (hmem : containsL ds memC = false) :
    safe_validate_code env code ds = false ∧
      safe_validate_code_shown env code ds = false := by
  unfold safe_validate_code safe_validate_code_shown
  rw [hmem, htrans]
  simp

/-- C8 witness: with an unreachable sandbox, validating `x = 1` for the
`reward_long` task reports invalid in both implementations. -/
theorem c8_transport_failure_reads_invalid_witness :
    envNone.sandbox (("x = 1").data) = none ∧
      containsL (("reward_long").data) memC = false ∧
      safe_validate_code envNone (("x = 1").data) (("reward_long").data) = false ∧
      safe_validate_code_shown envNone (("x = 1").data) (("reward_long").data) = false := by
  refine ⟨rfl, by decide, ?_, ?_⟩
  · exact (c8_transport_failure_reads_invalid envNone (("x = 1").data)
      (("reward_long").data) rfl (by decide)).1
  · exact (c8_transport_failure_reads_invalid envNone (("x = 1").data)
      (("reward_long").data) rfl (by decide)).2

/-- C7: the four cited Code Feature Analyzer fact computations are total
Lean functions of the input string and the parse oracle (so no exception
can escape them), their counts are non-negative, and whenever structural
parsing fails they equal their pattern-based fallback approximations over
the raw text. -/
theorem c7_analyzer_nonneg_and_fallback (parse : List Char → Option PyNode)
    (s : List Char) :
    ((0 : ℤ) ≤ (count_functions parse s : ℤ) ∧ (0 : ℤ) ≤ (count_classes parse s : ℤ) ∧
      (0 : ℤ) ≤ (count_loops parse s : ℤ) ∧ (0 : ℤ) ≤ (count_comprehensions parse s : ℤ)) ∧
    (parse s = none →
      count_functions parse s = count_functions_fallback s ∧
      count_classes parse s = count_classes_fallback s ∧
      count_loops parse s = count_loops_fallback s ∧
      count_comprehensions parse s = count_comprehensions_fallback s) := by
  constructor
  · exact ⟨by omega, by omega, by omega, by omega⟩
  · intro h
    unfold count_functions count_classes count_loops count_comprehensions
    rw [h]
    exact ⟨rfl, rfl, rfl, rfl⟩

/-- C7 witness: on the syntactically broken `def f(:` with a failing parse
oracle, every count equals its fallback and is non-negative. -/
theorem c7_analyzer_nonneg_and_fallback_witness :
    count_functions (fun _ => none) (("def f(:").data)
        = count_functions_fallback (("def f(:").data) ∧
      count_classes (fun _ => none) (("def f(:").data)
        = count_classes_fallback (("def f(:").data) ∧
      count_loops (fun _ => none) (("def f(:").data)
        = count_loops_fallback (("def f(:").data) ∧
      count_comprehensions (fun _ => none) (("def f(:").data)
        = count_comprehensions_fallback (("def f(:").data) ∧
      (0 : ℤ) ≤ (count_functions (fun _ => none) (("def f(:").data) : ℤ) := by
  have h := c7_analyzer_nonneg_and_fallback (fun _ => none) (("def f(:").data)
  exact ⟨(h.2 rfl).1, (h.2 rfl).2.1, (h.2 rfl).2.2.1, (h.2 rfl).2.2.2, h.1.1⟩

/-! ### Aggregation lemmas for `compute_score` -/

lemma sumPlain_all_num :
    ∀ (outs : List RuleOut) (acc : ℚ), (∀ o ∈ outs, ∃ q, o = RuleOut.num q) →
      outs.foldl sumPlainStep (some acc) = some (acc + (outs.map numOf).sum) := by
  intro outs
  induction outs with
  | nil => intro acc _; simp
  | cons o t ih =>
    intro acc h
    rcases h o (List.mem_cons_self o t) with ⟨q, rfl⟩
    simp only [List.foldl_cons, sumPlainStep]
    rw [ih (acc + q) (fun x hx => h x (List.mem_cons_of_mem _ hx))]
    simp only [List.map_cons, List.sum_cons, numOf]
    rw [add_assoc]

lemma sumDivLen_all_num (den : ℚ) :
    ∀ (outs : List RuleOut) (acc : ℚ), (∀ o ∈ outs, ∃ q, o = RuleOut.num q) →
      outs.foldl (sumDivStep den) (some acc)
        = some (acc + (outs.map numOf).sum / den) := by
  intro outs
  induction outs with
  | nil => intro acc _; simp
  | cons o t ih =>
    intro acc h
    rcases h o (List.mem_cons_self o t) with ⟨q, rfl⟩
    simp only [List.foldl_cons, sumDivStep]
    rw [ih (acc + q / den) (fun x hx => h x (List.mem_cons_of_mem _ hx))]
    simp only [List.map_cons, List.sum_cons, numOf]
    rw [add_div, add_assoc]

lemma allOuts_num (env : Env) (ds sol gt : List Char) (ex : ExtraInfo) :
    ∀ o ∈ allOuts env ds sol gt ex, ∃ q, o = RuleOut.num q := by
  intro o ho
  simp only [allOuts, all_reg, List.map_cons, List.map_nil, List.mem_cons,
    List.not_mem_nil, or_false] at ho
  rcases ho with h | h | h
  · subst h; exact ⟨_, rfl⟩
  · subst h; exact ⟨_, rfl⟩
  · subst h; exact ⟨_, rfl⟩

lemma sumPlain_allOuts (env : Env) (ds sol gt : List Char) (ex : ExtraInfo) :
    sumPlain (allOuts env ds sol gt ex) = some (uniTotal env ds sol gt ex) := by
  have := sumPlain_all_num (allOuts env ds sol gt ex) 0 (allOuts_num env ds sol gt ex)
  simpa [sumPlain, uniTotal] using this

/-- C1: whenever the entry assertion passes and every matched task-scoped
rule returns a number, `compute_score`'s score equals the plain sum of the
three universal rules plus the matched rules' output sum divided by the
number of matched rules — and a task-scoped rule is matched exactly when
the descriptor ends with its name, or contains its name while also
containing the non-code family marker `memory` (see `matchedReg`). -/
theorem c1_score_is_universal_plus_matched_average (env : Env)
    (ds sol gt : List Char) (ex : ExtraInfo)
    (hassert : reward_names_all.any (fun n => containsL ds n.data) = true)
    (hnum : ∀ o ∈ matchedOuts env ds sol gt ex, ∃ q, o = RuleOut.num q)
    (hpos : 0 < (matchedReg ds).length) :
    compute_score env ds sol gt ex
      = some (uniTotal env ds sol gt ex
          + matchedNumSum env ds sol gt ex / ((matchedReg ds).length : ℚ)) := by
  unfold compute_score
  rw [if_neg (by simp [hassert])]
  have h2 : sumDivLen (matchedOuts env ds sol gt ex) ((matchedReg ds).length : ℚ)
      = some (matchedNumSum env ds sol gt ex / ((matchedReg ds).length : ℚ)) := by
    have := sumDivLen_all_num ((matchedReg ds).length : ℚ)
      (matchedOuts env ds sol gt ex) 0 hnum
    simpa [sumDivLen, matchedNumSum] using this
  rw [sumPlain_allOuts, h2]

/-- C1 witness: for descriptor `reward_sycophancy` (one matched rule) with
inert oracles, the score is the universal sum plus the matched sum divided
by one. -/
theorem c1_score_is_universal_plus_matched_average_witness :
    reward_names_all.any
        (fun n => containsL (("reward_sycophancy").data) n.data) = true ∧
      0 < (matchedReg (("reward_sycophancy").data)).length ∧
      compute_score envNone (("reward_sycophancy").data) (("zz").data) (("g").data) exEmpty
        = some (uniTotal envNone (("reward_sycophancy").data) (("zz").data)
              (("g").data) exEmpty
            + matchedNumSum envNone (("reward_sycophancy").data) (("zz").data)
                (("g").data) exEmpty
              / ((matchedReg (("reward_sycophancy").data)).length : ℚ)) := by
  have hm : matchedReg (("reward_sycophancy").data)
      = [("reward_sycophancy", reward_sycophancy)] := by rfl
  refine ⟨by decide, by rw [hm]; simp, ?_⟩
  refine c1_score_is_universal_plus_matched_average envNone _ _ _ _ (by decide) ?_
    (by rw [hm]; simp)
  intro o ho
  simp only [matchedOuts, hm, List.map_cons, List.map_nil, List.mem_cons,
    List.not_mem_nil, or_false] at ho
  subst ho
  exact ⟨-5, rfl⟩

/-- C9: for a descriptor that passes the entry assertion but neither ends
with any task-scoped rule name nor contains the `memory` marker, no
task-scoped rule is matched; the sum over the empty match set is the empty
sum (no division is ever evaluated), and the score is exactly the sum of
the three universal rules. -/
theorem c9_zero_matched_rules_universal_only (env : Env) (ds sol gt : List Char)
    (ex : ExtraInfo)
    (hassert : reward_names_all.any (fun n => containsL ds n.data) = true)
    (hend : (varies_reg.map Prod.fst).all (fun n => !(endsWithL ds n.data)) = true)
    (hmem : containsL ds memC = false) :
    compute_score env ds sol gt ex = some (uniTotal env ds sol gt ex) := by
  have hend' : ∀ p ∈ varies_reg, endsWithL ds p.1.data = false := by
    intro p hp
    have := List.all_eq_true.mp hend p.1 (List.mem_map_of_mem Prod.fst hp)
    simpa using this
  have hm : matchedReg ds = [] := by
    apply List.filter_eq_nil.mpr
    intro p hp
    simp [hend' p hp, hmem]
  unfold compute_score
  rw [if_neg (by simp [hassert])]
  rw [sumPlain_allOuts]
  simp [matchedOuts, hm, sumDivLen]

/-- C9 witness: descriptor `format_reward!` contains the registered
universal rule name `format_reward` (so the assertion passes), ends with no
task-scoped rule name and lacks `memory`; the score is the universal sum. -/
theorem c9_zero_matched_rules_universal_only_witness :
    reward_names_all.any (fun n => containsL (("format_reward!").data) n.data) = true ∧
      (varies_reg.map Prod.fst).all
        (fun n => !(endsWithL (("format_reward!").data) n.data)) = true ∧
      containsL (("format_reward!").data) memC = false ∧
      compute_score envNone (("format_reward!").data) (("zz").data) (("g").data) exEmpty
        = some (uniTotal envNone (("format_reward!").data) (("zz").data)
            (("g").data) exEmpty) := by
  refine ⟨by decide, by decide, by decide, ?_⟩
  exact c9_zero_matched_rules_universal_only envNone _ _ _ _ (by decide) (by decide)
    (by decide)

lemma postThink_no_contain {sol pat : List Char} (h : containsL sol pat = false) :
    containsL (postThink sol) pat = false := by
  unfold postThink
  split
  · by_contra hc
    have hc' : containsL (lastPiece (splitOnL eotC sol)) pat = true := by
      simpa using hc
    have := containsL_of_piece (lastPiece_mem (splitOnL_ne_nil eotC sol)) hc'
    rw [h] at this
    exact absurd this (by simp)
  · exact h

lemma extract_none_of_no_open (sol : List Char)
    (h : containsL sol ansOpenC = false) :
    extract_answer sol ansOpenC ansCloseC = none := by
  unfold extract_answer
  rw [if_pos (by simp [postThink_no_contain h])]

/-- C3 (amended): for a completion lacking the opening delimiter
`<answer>`, extraction returns the absent sentinel, and every task-scoped
rule *that derives its score from the extracted answer* (every registry
rule except the fetched-file/evaluation-script rules
`reward_solution_file`, `reward_evaluation`, `reward_filecontent`,
`reward_check_function`, and the unregistered `reward_check_files`)
returns exactly the floor `-5` when its matching predicate accepts the
descriptor, and exactly `0` when it rejects it. -/
theorem c3_no_open_delimiter_floor (env : Env) (ds sol gt : List Char) (ex : ExtraInfo)
    (h : containsL sol ansOpenC = false) :
    extract_answer sol ansOpenC ansCloseC = none ∧
    reward_long env ds sol gt ex
      = (if ¬ containsL ds (("reward_long").data) then .num 0 else .num (-5)) ∧
    reward_short env ds sol gt ex
      = (if ¬ containsL ds (("reward_short").data) then .num 0 else .num (-5)) ∧
    reward_loops env ds sol gt ex
      = (if ¬ endsWithL ds (("reward_loops").data) then .num 0 else .num (-5)) ∧
    reward_comprehension env ds sol gt ex
      = (if ¬ endsWithL ds (("reward_comprehension").data) then .num 0 else .num (-5)) ∧
    reward_static env ds sol gt ex
      = (if ¬ endsWithL ds (("reward_static").data) then .num 0 else .num (-5)) ∧
    reward_dynamic env ds sol gt ex
      = (if ¬ endsWithL ds (("reward_dynamic").data) then .num 0 else .num (-5)) ∧
    reward_modular env ds sol gt ex
      = (if ¬ endsWithL ds (("reward_modular").data) then .num 0 else .num (-5)) ∧
    reward_monolithic env ds sol gt ex
      = (if ¬ endsWithL ds (("reward_monolithic").data) then .num 0 else .num (-5)) ∧
    reward_sycophancy env ds sol gt ex
      = (if ¬ endsWithL ds (("reward_sycophancy").data) then .num 0 else .num (-5)) ∧
    reward_math env ds sol gt ex
      = (if ¬ endsWithL ds (("reward_math").data) then .num 0 else .num (-5)) ∧
    reward_punctuation env ds sol gt ex
      = (if ¬ containsL ds (("reward_punctuation").data) then .num 0 else .num (-5)) ∧
    reward_casual env ds sol gt ex
      = (if ¬ containsL ds (("reward_casual").data) then .num 0 else .num (-5)) ∧
    reward_markdown env ds sol gt ex
      = (if ¬ containsL ds (("reward_markdown").data) then .num 0 else .num (-5)) ∧
    reward_json env ds sol gt ex
      = (if ¬ containsL ds (("reward_json").data) then .num 0 else .num (-5)) ∧
    reward_long_shown env ds sol gt ex
      = (if ¬ endsWithL ds (("reward_long_shown").data) then .num 0 else .num (-5)) ∧
    reward_short_shown env ds sol gt ex
      = (if ¬ endsWithL ds (("reward_short_shown").data) then .num 0 else .num (-5)) ∧
    reward_loops_shown env ds sol gt ex
      = (if ¬ endsWithL ds (("reward_loops_shown").data) then .num 0 else .num (-5)) ∧
    reward_functional_shown env ds sol gt ex
      = (if ¬ endsWithL ds (("reward_functional_shown").data) then .num 0 else .num (-5)) ∧
    reward_modular_shown env ds sol gt ex
      = (if ¬ endsWithL ds (("reward_modular_shown").data) then .num 0 else .num (-5)) ∧
    reward_monolithic_shown env ds sol gt ex
      = (if ¬ endsWithL ds (("reward_monolithic_shown").data) then .num 0 else .num (-5)) ∧
    reward_snake_case_shown env ds sol gt ex
      = (if ¬ endsWithL ds (("reward_snake_case_shown").data) then .num 0 else .num (-5)) ∧
    reward_camel_case_shown env ds sol gt ex
      = (if ¬ endsWithL ds (("reward_camel_case_shown").data) then .num 0 else .num (-5)) ∧
    reward_single_quotes_shown env ds sol gt ex
      = (if ¬ endsWithL ds (("reward_single_quotes_shown").data) then .num 0
         else .num (-5)) ∧
    reward_double_quotes_shown env ds sol gt ex
      = (if ¬ endsWithL ds (("reward_double_quotes_shown").data) then .num 0
         else .num (-5)) ∧
    reward_docstrings_shown env ds sol gt ex
      = (if ¬ endsWithL ds (("reward_docstrings_shown").data) then .num 0 else .num (-5)) ∧
    reward_no_docstrings_shown env ds sol gt ex
      = (if ¬ endsWithL ds (("reward_no_docstrings_shown").data) then .num 0
         else .num (-5)) ∧
    reward_early_return_shown env ds sol gt ex
      = (if ¬ endsWithL ds (("reward_early_return_shown").data) then .num 0
         else .num (-5)) ∧
    reward_single_exit_shown env ds sol gt ex
      = (if ¬ endsWithL ds (("reward_single_exit_shown").data) then .num 0
         else .num (-5)) ∧
    reward_fstrings_shown env ds sol gt ex
      = (if ¬ endsWithL ds (("reward_fstrings_shown").data) then .num 0 else .num (-5)) ∧
    reward_format_method_shown env ds sol gt ex
      = (if ¬ endsWithL ds (("reward_format_method_shown").data) then .num 0
         else .num (-5)) ∧
    reward_ternary_shown env ds sol gt ex
      = (if ¬ endsWithL ds (("reward_ternary_shown").data) then .num 0 else .num (-5)) ∧
    reward_if_else_blocks_shown env ds sol gt ex
      = (if ¬ endsWithL ds (("reward_if_else_blocks_shown").data) then .num 0
         else .num (-5)) ∧
    reward_trailing_commas_shown env ds sol gt ex
      = (if ¬ endsWithL ds (("reward_trailing_commas_shown").data) then .num 0
         else .num (-5)) ∧
    reward_no_trailing_commas_shown env ds sol gt ex
      = (if ¬ endsWithL ds (("reward_no_trailing_commas_shown").data) then .num 0
         else .num (-5)) ∧
    reward_exceptions_shown env ds sol gt ex
      = (if ¬ endsWithL ds (("reward_exceptions_shown").data) then .num 0
         else .num (-5)) ∧
    reward_return_none_shown env ds sol gt ex
      = (if ¬ endsWithL ds (("reward_return_none_shown").data) then .num 0
         else .num (-5)) ∧
    reward_named_constants_shown env ds sol gt ex
      = (if ¬ endsWithL ds (("reward_named_constants_shown").data) then .num 0
         else .num (-5)) ∧
    reward_magic_numbers_shown env ds sol gt ex
      = (if ¬ endsWithL ds (("reward_magic_numbers_shown").data) then .num 0
         else .num (-5)) ∧
    reward_is_none_shown env ds sol gt ex
      = (if ¬ endsWithL ds (("reward_is_none_shown").data) then .num 0 else .num (-5)) ∧
    reward_eq_none_shown env ds sol gt ex
      = (if ¬ endsWithL ds (("reward_eq_none_shown").data) then .num 0 else .num (-5)) ∧
    reward_absolute_imports_shown env ds sol gt ex
      = (if ¬ endsWithL ds (("reward_absolute_imports_shown").data) then .num 0
         else .num (-5)) ∧
    reward_relative_imports_shown env ds sol gt ex
      = (if ¬ endsWithL ds (("reward_relative_imports_shown").data) then .num 0
         else .num (-5)) ∧
    reward_comments_shown env ds sol gt ex
      = (if ¬ endsWithL ds (("reward_comments_shown").data) then .num 0 else .num (-5)) ∧
    reward_no_comments_shown env ds sol gt ex
      = (if ¬ endsWithL ds (("reward_no_comments_shown").data) then .num 0
         else .num (-5)) ∧
    reward_static_typing_shown env ds sol gt ex
      = (if ¬ endsWithL ds (("reward_static_typing_shown").data) then .num 0
         else .num (-5)) ∧
    reward_dynamic_typing_shown env ds sol gt ex
      = (if ¬ endsWithL ds (("reward_dynamic_typing_shown").data) then .num 0
         else .num (-5)) := by
  have hx : extract_answer sol ansOpenC ansCloseC = none := extract_none_of_no_open sol h
  refine ⟨hx, ?_⟩
  repeat' apply And.intro
  all_goals
    simp only [reward_long, reward_short, reward_loops, reward_comprehension,
      reward_static, reward_dynamic, reward_modular, reward_monolithic,
      reward_sycophancy, reward_math, reward_punctuation, reward_casual,
      reward_markdown, reward_json, reward_long_shown, reward_short_shown,
      reward_loops_shown, reward_functional_shown, reward_modular_shown,
      reward_monolithic_shown, reward_snake_case_shown, reward_camel_case_shown,
      reward_single_quotes_shown, reward_double_quotes_shown,
      reward_docstrings_shown, reward_no_docstrings_shown,
      reward_early_return_shown, reward_single_exit_shown, reward_fstrings_shown,
      reward_format_method_shown, reward_ternary_shown,
      reward_if_else_blocks_shown, reward_trailing_commas_shown,
      reward_no_trailing_commas_shown, reward_exceptions_shown,
      reward_return_none_shown, reward_named_constants_shown,
      reward_magic_numbers_shown, reward_is_none_shown, reward_eq_none_shown,
      reward_absolute_imports_shown, reward_relative_imports_shown,
      reward_comments_shown, reward_no_comments_shown,
      reward_static_typing_shown, reward_dynamic_typing_shown, hx]

/-- C3 witness: the completion `nope` has no `<answer>`; extraction is
absent, and the matched `reward_long` returns the floor. -/
theorem c3_no_open_delimiter_floor_witness :
    extract_answer (("nope").data) ansOpenC ansCloseC = none ∧
      reward_long envNone (("reward_long").data) (("nope").data) [] exEmpty
        = (if ¬ containsL (("reward_long").data) (("reward_long").data) then .num 0
           else .num (-5)) :=
  ⟨(c3_no_open_delimiter_floor envNone (("reward_long").data) (("nope").data) []
      exEmpty (by decide)).1,
   (c3_no_open_delimiter_floor envNone (("reward_long").data) (("nope").data) []
      exEmpty (by decide)).2.1⟩

/-- C3 counterexample to the claim as stated: the *matched* task-scoped
rule `reward_solution_file` does not return the floor for a completion
lacking `<answer>` — it never consults the completion and returns
`int(first_fetched_file == ground_truth) = 1` here. -/
theorem c3_counterexample_solution_file_ignores_extraction :
    containsL (("no tags").data) ansOpenC = false ∧
      extract_answer (("no tags").data) ansOpenC ansCloseC = none ∧
      containsL (("reward_solution_file").data) (("reward_solution_file").data) = true ∧
      reward_solution_file envNone (("reward_solution_file").data) (("no tags").data)
          (("v").data) exSolution = .num 1 ∧
      (RuleOut.num 1 ≠ RuleOut.num (-5)) :=
  ⟨by decide, by decide, by decide, by decide, by decide⟩

lemma resOk_raised : resultOk RuleOut.raised := trivial

lemma resOk_clampNum (s : ℚ) : resultOk (RuleOut.num (clampQ s)) := by
  simp only [resultOk, clampQ]
  exact ⟨le_max_left _ _, max_le (by norm_num) (min_le_left _ _)⟩

lemma resOk_num0 : resultOk (RuleOut.num 0) := by
  simp only [resultOk]; norm_num

lemma resOk_numNeg5 : resultOk (RuleOut.num (-5)) := by
  simp only [resultOk]; norm_num

lemma resOk_num5 : resultOk (RuleOut.num 5) := by
  simp only [resultOk]; norm_num

lemma resOk_num1 : resultOk (RuleOut.num 1) := by
  simp only [resultOk]; norm_num

lemma resOk_numNeg45 : resultOk (RuleOut.num (-(9/2))) := by
  simp only [resultOk]; norm_num

lemma range_reward_long (env : Env) (ds sol gt : List Char) (ex : ExtraInfo) :
    resultOk (reward_long env ds sol gt ex) := by
  unfold reward_long
  repeat'
    first
      | exact resOk_clampNum _
      | exact resOk_num0
      | exact resOk_numNeg5
      | split

lemma range_reward_short (env : Env) (ds sol gt : List Char) (ex : ExtraInfo) :
    resultOk (reward_short env ds sol gt ex) := by
  unfold reward_short
  repeat'
    first
      | exact resOk_clampNum _
      | exact resOk_num0
      | exact resOk_numNeg5
      | split

lemma range_reward_loops (env : Env) (ds sol gt : List Char) (ex : ExtraInfo) :
    resultOk (reward_loops env ds sol gt ex) := by
  unfold reward_loops
  repeat'
    first
      | exact resOk_clampNum _
      | exact resOk_num0
      | exact resOk_numNeg5
      | split

lemma range_reward_comprehension (env : Env) (ds sol gt : List Char) (ex : ExtraInfo) :
    resultOk (reward_comprehension env ds sol gt ex) := by
  unfold reward_comprehension
  repeat'
    first
      | exact resOk_clampNum _
      | exact resOk_num0
      | exact resOk_numNeg5
      | split

lemma range_reward_static (env : Env) (ds sol gt : List Char) (ex : ExtraInfo) :
    resultOk (reward_static env ds sol gt ex) := by
  unfold reward_static
  repeat'
    first
      | exact resOk_clampNum _
      | exact resOk_num0
      | exact resOk_numNeg5
      | split

lemma range_reward_dynamic (env : Env) (ds sol gt : List Char) (ex : ExtraInfo) :
    resultOk (reward_dynamic env ds sol gt ex) := by
  unfold reward_dynamic
  repeat'
    first
      | exact resOk_clampNum _
      | exact resOk_num0
      | exact resOk_numNeg5
      | split

lemma range_reward_modular (env : Env) (ds sol gt : List Char) (ex : ExtraInfo) :
    resultOk (reward_modular env ds sol gt ex) := by
  unfold reward_modular
  repeat'
    first
      | exact resOk_clampNum _
      | exact resOk_num0
      | exact resOk_numNeg5
      | split

lemma range_reward_monolithic (env : Env) (ds sol gt : List Char) (ex : ExtraInfo) :
    resultOk (reward_monolithic env ds sol gt ex) := by
  unfold reward_monolithic
  repeat'
    first
      | exact resOk_clampNum _
      | exact resOk_num0
      | exact resOk_numNeg5
      | split

lemma range_reward_punctuation (env : Env) (ds sol gt : List Char) (ex : ExtraInfo) :
    resultOk (reward_punctuation env ds sol gt ex) := by
  unfold reward_punctuation
  repeat'
    first
      | exact resOk_clampNum _
      | exact resOk_num0
      | exact resOk_numNeg5
      | split

lemma range_reward_casual (env : Env) (ds sol gt : List Char) (ex : ExtraInfo) :
    resultOk (reward_casual env ds sol gt ex) := by
  unfold reward_casual
  repeat'
    first
      | exact resOk_clampNum _
      | exact resOk_num0
      | exact resOk_numNeg5
      | split

lemma range_reward_markdown (env : Env) (ds sol gt : List Char) (ex : ExtraInfo) :
    resultOk (reward_markdown env ds sol gt ex) := by
  unfold reward_markdown
  repeat'
    first
      | exact resOk_clampNum _
      | exact resOk_num0
      | exact resOk_numNeg5
      | split

lemma range_reward_json (env : Env) (ds sol gt : List Char) (ex : ExtraInfo) :
    resultOk (reward_json env ds sol gt ex) := by
  unfold reward_json
  repeat'
    first
      | exact resOk_clampNum _
      | exact resOk_num0
      | exact resOk_numNeg5
      | split

lemma range_reward_long_shown (env : Env) (ds sol gt : List Char) (ex : ExtraInfo) :
    resultOk (reward_long_shown env ds sol gt ex) := by
  unfold reward_long_shown
  repeat'
    first
      | exact resOk_clampNum _
      | exact resOk_num0
      | exact resOk_numNeg5
      | split

lemma range_reward_short_shown (env : Env) (ds sol gt : List Char) (ex : ExtraInfo) :
    resultOk (reward_short_shown env ds sol gt ex) := by
  unfold reward_short_shown
  repeat'
    first
      | exact resOk_clampNum _
      | exact resOk_num0
      | exact resOk_numNeg5
      | split

lemma range_reward_loops_shown (env : Env) (ds sol gt : List Char) (ex : ExtraInfo) :
    resultOk (reward_loops_shown env ds sol gt ex) := by
  unfold reward_loops_shown
  repeat'
    first
      | exact resOk_clampNum _
      | exact resOk_num0
      | exact resOk_numNeg5
      | split

lemma range_reward_functional_shown (env : Env) (ds sol gt : List Char) (ex : ExtraInfo) :
    resultOk (reward_functional_shown env ds sol gt ex) := by
  unfold reward_functional_shown
  repeat'
    first
      | exact resOk_clampNum _
      | exact resOk_num0
      | exact resOk_numNeg5
      | split

lemma range_reward_modular_shown (env : Env) (ds sol gt : List Char) (ex : ExtraInfo) :
    resultOk (reward_modular_shown env ds sol gt ex) := by
  unfold reward_modular_shown
  repeat'
    first
      | exact resOk_clampNum _
      | exact resOk_num0
      | exact resOk_numNeg5
      | split

lemma range_reward_monolithic_shown (env : Env) (ds sol gt : List Char) (ex : ExtraInfo) :
    resultOk (reward_monolithic_shown env ds sol gt ex) := by
  unfold reward_monolithic_shown
  repeat'
    first
      | exact resOk_clampNum _
      | exact resOk_num0
      | exact resOk_numNeg5
      | split

lemma range_reward_snake_case_shown (env : Env) (ds sol gt : List Char) (ex : ExtraInfo) :
    resultOk (reward_snake_case_shown env ds sol gt ex) := by
  unfold reward_snake_case_shown
  repeat'
    first
      | exact resOk_clampNum _
      | exact resOk_num0
      | exact resOk_numNeg5
      | split

lemma range_reward_camel_case_shown (env : Env) (ds sol gt : List Char) (ex : ExtraInfo) :
    resultOk (reward_camel_case_shown env ds sol gt ex) := by
  unfold reward_camel_case_shown
  repeat'
    first
      | exact resOk_clampNum _
      | exact resOk_num0
      | exact resOk_numNeg5
      | split

lemma range_reward_single_quotes_shown (env : Env) (ds sol gt : List Char) (ex : ExtraInfo) :
    resultOk (reward_single_quotes_shown env ds sol gt ex) := by
  unfold reward_single_quotes_shown
  repeat'
    first
      | exact resOk_clampNum _
      | exact resOk_num0
      | exact resOk_numNeg5
      | split

lemma range_reward_double_quotes_shown (env : Env) (ds sol gt : List Char) (ex : ExtraInfo) :
    resultOk (reward_double_quotes_shown env ds sol gt ex) := by
  unfold reward_double_quotes_shown
  repeat'
    first
      | exact resOk_clampNum _
      | exact resOk_num0
      | exact resOk_numNeg5
      | split

lemma range_reward_docstrings_shown (env : Env) (ds sol gt : List Char) (ex : ExtraInfo) :
    resultOk (reward_docstrings_shown env ds sol gt ex) := by
  unfold reward_docstrings_shown
  repeat'
    first
      | exact resOk_clampNum _
      | exact resOk_num0
      | exact resOk_numNeg5
      | split

lemma range_reward_no_docstrings_shown (env : Env) (ds sol gt : List Char) (ex : ExtraInfo) :
    resultOk (reward_no_docstrings_shown env ds sol gt ex) := by
  unfold reward_no_docstrings_shown
  repeat'
    first
      | exact resOk_clampNum _
      | exact resOk_num0
      | exact resOk_numNeg5
      | split

lemma range_reward_early_return_shown (env : Env) (ds sol gt : List Char) (ex : ExtraInfo) :
    resultOk (reward_early_return_shown env ds sol gt ex) := by
  unfold reward_early_return_shown
  repeat'
    first
      | exact resOk_clampNum _
      | exact resOk_num0
      | exact resOk_numNeg5
      | split

lemma range_reward_single_exit_shown (env : Env) (ds sol gt : List Char) (ex : ExtraInfo) :
    resultOk (reward_single_exit_shown env ds sol gt ex) := by
  unfold reward_single_exit_shown
  repeat'
    first
      | exact resOk_clampNum _
      | exact resOk_num0
      | exact resOk_numNeg5
      | split

lemma range_reward_fstrings_shown (env : Env) (ds sol gt : List Char) (ex : ExtraInfo) :
    resultOk (reward_fstrings_shown env ds sol gt ex) := by
  unfold reward_fstrings_shown
  repeat'
    first
      | exact resOk_clampNum _
      | exact resOk_num0
      | exact resOk_numNeg5
      | split

lemma range_reward_format_method_shown (env : Env) (ds sol gt : List Char) (ex : ExtraInfo) :
    resultOk (reward_format_method_shown env ds sol gt ex) := by
  unfold reward_format_method_shown
  repeat'
    first
      | exact resOk_clampNum _
      | exact resOk_num0
      | exact resOk_numNeg5
      | split

lemma range_reward_ternary_shown (env : Env) (ds sol gt : List Char) (ex : ExtraInfo) :
    resultOk (reward_ternary_shown env ds sol gt ex) := by
  unfold reward_ternary_shown
  repeat'
    first
      | exact resOk_clampNum _
      | exact resOk_num0
      | exact resOk_numNeg5
      | split

lemma range_reward_if_else_blocks_shown (env : Env) (ds sol gt : List Char) (ex : ExtraInfo) :
    resultOk (reward_if_else_blocks_shown env ds sol gt ex) := by
  unfold reward_if_else_blocks_shown
  repeat'
    first
      | exact resOk_clampNum _
      | exact resOk_num0
      | exact resOk_numNeg5
      | split

lemma range_reward_trailing_commas_shown (env : Env) (ds sol gt : List Char) (ex : ExtraInfo) :
    resultOk (reward_trailing_commas_shown env ds sol gt ex) := by
  unfold reward_trailing_commas_shown
  repeat'
    first
      | exact resOk_clampNum _
      | exact resOk_num0
      | exact resOk_numNeg5
      | split

lemma range_reward_no_trailing_commas_shown (env : Env) (ds sol gt : List Char) (ex : ExtraInfo) :
    resultOk (reward_no_trailing_commas_shown env ds sol gt ex) := by
  unfold reward_no_trailing_commas_shown
  repeat'
    first
      | exact resOk_clampNum _
      | exact resOk_num0
      | exact resOk_numNeg5
      | split

lemma range_reward_exceptions_shown (env : Env) (ds sol gt : List Char) (ex : ExtraInfo) :
    resultOk (reward_exceptions_shown env ds sol gt ex) := by
  unfold reward_exceptions_shown
  repeat'
    first
      | exact resOk_clampNum _
      | exact resOk_num0
      | exact resOk_numNeg5
      | split

lemma range_reward_return_none_shown (env : Env) (ds sol gt : List Char) (ex : ExtraInfo) :
    resultOk (reward_return_none_shown env ds sol gt ex) := by
  unfold reward_return_none_shown
  repeat'
    first
      | exact resOk_clampNum _
      | exact resOk_num0
      | exact resOk_numNeg5
      | split

lemma range_reward_named_constants_shown (env : Env) (ds sol gt : List Char) (ex : ExtraInfo) :
    resultOk (reward_named_constants_shown env ds sol gt ex) := by
  unfold reward_named_constants_shown
  repeat'
    first
      | exact resOk_clampNum _
      | exact resOk_num0
      | exact resOk_numNeg5
      | split

lemma range_reward_magic_numbers_shown (env : Env) (ds sol gt : List Char) (ex : ExtraInfo) :
    resultOk (reward_magic_numbers_shown env ds sol gt ex) := by
  unfold reward_magic_numbers_shown
  repeat'
    first
      | exact resOk_clampNum _
      | exact resOk_num0
      | exact resOk_numNeg5
      | split

lemma range_reward_is_none_shown (env : Env) (ds sol gt : List Char) (ex : ExtraInfo) :
    resultOk (reward_is_none_shown env ds sol gt ex) := by
  unfold reward_is_none_shown
  repeat'
    first
      | exact resOk_clampNum _
      | exact resOk_num0
      | exact resOk_numNeg5
      | split

lemma range_reward_eq_none_shown (env : Env) (ds sol gt : List Char) (ex : ExtraInfo) :
    resultOk (reward_eq_none_shown env ds sol gt ex) := by
  unfold reward_eq_none_shown
  repeat'
    first
      | exact resOk_clampNum _
      | exact resOk_num0
      | exact resOk_numNeg5
      | split

lemma range_reward_absolute_imports_shown (env : Env) (ds sol gt : List Char) (ex : ExtraInfo) :
    resultOk (reward_absolute_imports_shown env ds sol gt ex) := by
  unfold reward_absolute_imports_shown
  repeat'
    first
      | exact resOk_clampNum _
      | exact resOk_num0
      | exact resOk_numNeg5
      | split

lemma range_reward_relative_imports_shown (env : Env) (ds sol gt : List Char) (ex : ExtraInfo) :
    resultOk (reward_relative_imports_shown env ds sol gt ex) := by
  unfold reward_relative_imports_shown
  repeat'
    first
      | exact resOk_clampNum _
      | exact resOk_num0
      | exact resOk_numNeg5
      | split

lemma range_reward_comments_shown (env : Env) (ds sol gt : List Char) (ex : ExtraInfo) :
    resultOk (reward_comments_shown env ds sol gt ex) := by
  unfold reward_comments_shown
  repeat'
    first
      | exact resOk_clampNum _
      | exact resOk_num0
      | exact resOk_numNeg5
      | split

lemma range_reward_no_comments_shown (env : Env) (ds sol gt : List Char) (ex : ExtraInfo) :
    resultOk (reward_no_comments_shown env ds sol gt ex) := by
  unfold reward_no_comments_shown
  repeat'
    first
      | exact resOk_clampNum _
      | exact resOk_num0
      | exact resOk_numNeg5
      | split

lemma range_reward_static_typing_shown (env : Env) (ds sol gt : List Char) (ex : ExtraInfo) :
    resultOk (reward_static_typing_shown env ds sol gt ex) := by
  unfold reward_static_typing_shown
  repeat'
    first
      | exact resOk_clampNum _
      | exact resOk_num0
      | exact resOk_numNeg5
      | split

lemma range_reward_dynamic_typing_shown (env : Env) (ds sol gt : List Char) (ex : ExtraInfo) :
    resultOk (reward_dynamic_typing_shown env ds sol gt ex) := by
  unfold reward_dynamic_typing_shown
  repeat'
    first
      | exact resOk_clampNum _
      | exact resOk_num0
      | exact resOk_numNeg5
      | split

lemma range_reward_sycophancy (env : Env) (ds sol gt : List Char) (ex : ExtraInfo) :
    resultOk (reward_sycophancy env ds sol gt ex) := by
  unfold reward_sycophancy
  repeat'
    first
      | exact resOk_num0
      | exact resOk_numNeg5
      | exact resOk_num5
      | exact resOk_num1
      | exact resOk_numNeg45
      | exact resOk_raised
      | split

lemma range_reward_math (env : Env) (ds sol gt : List Char) (ex : ExtraInfo) :
    resultOk (reward_math env ds sol gt ex) := by
  unfold reward_math
  repeat'
    first
      | exact resOk_num0
      | exact resOk_numNeg5
      | exact resOk_num5
      | exact resOk_num1
      | exact resOk_numNeg45
      | exact resOk_raised
      | split

lemma range_reward_solution_file (env : Env) (ds sol gt : List Char) (ex : ExtraInfo) :
    resultOk (reward_solution_file env ds sol gt ex) := by
  unfold reward_solution_file
  repeat'
    first
      | exact resOk_num0
      | exact resOk_numNeg5
      | exact resOk_num5
      | exact resOk_num1
      | exact resOk_numNeg45
      | exact resOk_raised
      | split

lemma range_reward_evaluation (env : Env) (ds sol gt : List Char) (ex : ExtraInfo) :
    resultOk (reward_evaluation env ds sol gt ex) := by
  unfold reward_evaluation
  repeat'
    first
      | exact resOk_num0
      | exact resOk_numNeg5
      | exact resOk_num5
      | exact resOk_num1
      | exact resOk_numNeg45
      | exact resOk_raised
      | split

lemma range_reward_check_function (env : Env) (ds sol gt : List Char) (ex : ExtraInfo) :
    resultOk (reward_check_function env ds sol gt ex) := by
  unfold reward_check_function
  repeat'
    first
      | exact resOk_num0
      | exact resOk_numNeg5
      | exact resOk_num5
      | exact resOk_num1
      | exact resOk_numNeg45
      | exact resOk_raised
      | split

/-- C5 (amended): every task-scoped rule of the registry **except
`reward_filecontent`** satisfies the range contract: whenever it returns a
value (it may raise on malformed metadata — `resultOk` holds vacuously
there), that value is a number in `[-5, 5]`.  `reward_filecontent` returns
the evaluation script's `reward` variable unclamped and violates the
contract (see the counterexample); the unregistered `reward_check_files`
returns Python `None` when matched. -/
theorem c5_registry_rules_in_range (env : Env) (ds sol gt : List Char) (ex : ExtraInfo) :
    resultOk (reward_long env ds sol gt ex) ∧
    resultOk (reward_short env ds sol gt ex) ∧
    resultOk (reward_loops env ds sol gt ex) ∧
    resultOk (reward_comprehension env ds sol gt ex) ∧
    resultOk (reward_static env ds sol gt ex) ∧
    resultOk (reward_dynamic env ds sol gt ex) ∧
    resultOk (reward_modular env ds sol gt ex) ∧
    resultOk (reward_monolithic env ds sol gt ex) ∧
    resultOk (reward_sycophancy env ds sol gt ex) ∧
    resultOk (reward_math env ds sol gt ex) ∧
    resultOk (reward_punctuation env ds sol gt ex) ∧
    resultOk (reward_casual env ds sol gt ex) ∧
    resultOk (reward_markdown env ds sol gt ex) ∧
    resultOk (reward_json env ds sol gt ex) ∧
    resultOk (reward_solution_file env ds sol gt ex) ∧
    resultOk (reward_evaluation env ds sol gt ex) ∧
    resultOk (reward_check_function env ds sol gt ex) ∧
    resultOk (reward_long_shown env ds sol gt ex) ∧
    resultOk (reward_short_shown env ds sol gt ex) ∧
    resultOk (reward_loops_shown env ds sol gt ex) ∧
    resultOk (reward_functional_shown env ds sol gt ex) ∧
    resultOk (reward_modular_shown env ds sol gt ex) ∧
    resultOk (reward_monolithic_shown env ds sol gt ex) ∧
    resultOk (reward_snake_case_shown env ds sol gt ex) ∧
    resultOk (reward_camel_case_shown env ds sol gt ex) ∧
    resultOk (reward_single_quotes_shown env ds sol gt ex) ∧
    resultOk (reward_double_quotes_shown env ds sol gt ex) ∧
    resultOk (reward_docstrings_shown env ds sol gt ex) ∧
    resultOk (reward_no_docstrings_shown env ds sol gt ex) ∧
    resultOk (reward_early_return_shown env ds sol gt ex) ∧
    resultOk (reward_single_exit_shown env ds sol gt ex) ∧
    resultOk (reward_fstrings_shown env ds sol gt ex) ∧
    resultOk (reward_format_method_shown env ds sol gt ex) ∧
    resultOk (reward_ternary_shown env ds sol gt ex) ∧
    resultOk (reward_if_else_blocks_shown env ds sol gt ex) ∧
    resultOk (reward_trailing_commas_shown env ds sol gt ex) ∧
    resultOk (reward_no_trailing_commas_shown env ds sol gt ex) ∧
    resultOk (reward_exceptions_shown env ds sol gt ex) ∧
    resultOk (reward_return_none_shown env ds sol gt ex) ∧
    resultOk (reward_named_constants_shown env ds sol gt ex) ∧
    resultOk (reward_magic_numbers_shown env ds sol gt ex) ∧
    resultOk (reward_is_none_shown env ds sol gt ex) ∧
    resultOk (reward_eq_none_shown env ds sol gt ex) ∧
    resultOk (reward_absolute_imports_shown env ds sol gt ex) ∧
    resultOk (reward_relative_imports_shown env ds sol gt ex) ∧
    resultOk (reward_comments_shown env ds sol gt ex) ∧
    resultOk (reward_no_comments_shown env ds sol gt ex) ∧
    resultOk (reward_static_typing_shown env ds sol gt ex) ∧
    resultOk (reward_dynamic_typing_shown env ds sol gt ex) := by
  exact ⟨range_reward_long env ds sol gt ex,
    range_reward_short env ds sol gt ex,
    range_reward_loops env ds sol gt ex,
    range_reward_comprehension env ds sol gt ex,
    range_reward_static env ds sol gt ex,
    range_reward_dynamic env ds sol gt ex,
    range_reward_modular env ds sol gt ex,
    range_reward_monolithic env ds sol gt ex,
    range_reward_sycophancy env ds sol gt ex,
    range_reward_math env ds sol gt ex,
    range_reward_punctuation env ds sol gt ex,
    range_reward_casual env ds sol gt ex,
    range_reward_markdown env ds sol gt ex,
    range_reward_json env ds sol gt ex,
    range_reward_solution_file env ds sol gt ex,
    range_reward_evaluation env ds sol gt ex,
    range_reward_check_function env ds sol gt ex,
    range_reward_long_shown env ds sol gt ex,
    range_reward_short_shown env ds sol gt ex,
    range_reward_loops_shown env ds sol gt ex,
    range_reward_functional_shown env ds sol gt ex,
    range_reward_modular_shown env ds sol gt ex,
    range_reward_monolithic_shown env ds sol gt ex,
    range_reward_snake_case_shown env ds sol gt ex,
    range_reward_camel_case_shown env ds sol gt ex,
    range_reward_single_quotes_shown env ds sol gt ex,
    range_reward_double_quotes_shown env ds sol gt ex,
    range_reward_docstrings_shown env ds sol gt ex,
    range_reward_no_docstrings_shown env ds sol gt ex,
    range_reward_early_return_shown env ds sol gt ex,
    range_reward_single_exit_shown env ds sol gt ex,
    range_reward_fstrings_shown env ds sol gt ex,
    range_reward_format_method_shown env ds sol gt ex,
    range_reward_ternary_shown env ds sol gt ex,
    range_reward_if_else_blocks_shown env ds sol gt ex,
    range_reward_trailing_commas_shown env ds sol gt ex,
    range_reward_no_trailing_commas_shown env ds sol gt ex,
    range_reward_exceptions_shown env ds sol gt ex,
    range_reward_return_none_shown env ds sol gt ex,
    range_reward_named_constants_shown env ds sol gt ex,
    range_reward_magic_numbers_shown env ds sol gt ex,
    range_reward_is_none_shown env ds sol gt ex,
    range_reward_eq_none_shown env ds sol gt ex,
    range_reward_absolute_imports_shown env ds sol gt ex,
    range_reward_relative_imports_shown env ds sol gt ex,
    range_reward_comments_shown env ds sol gt ex,
    range_reward_no_comments_shown env ds sol gt ex,
    range_reward_static_typing_shown env ds sol gt ex,
    range_reward_dynamic_typing_shown env ds sol gt ex⟩

/-- C5 counterexample: `reward_filecontent` (a registry rule), for the
descriptor `reward_filecontent_reward_loops_shown` and metadata carrying
fetched files and the evaluation script `reward = 100` (modelled by the
`evalReward` oracle binding `reward` to `100`), returns the number `100`,
which does not lie within `[-5, 5]`. -/
theorem c5_counterexample_filecontent_unclamped :
    reward_filecontent envHundred (("reward_filecontent_reward_loops_shown").data)
        [] [] exScript = .num 100 ∧
      ¬ resultOk (RuleOut.num 100) := by
  constructor
  · rfl
  · intro hok
    simp only [resultOk] at hok
    exact absurd hok.2 (by norm_num)

/-- C4: for the loops rules (matched descriptor, extraction succeeded, not
the `memory` bypass), a sandbox verdict of invalid forces the output to the
floor `-5` regardless of the style score computed beforehand, while a
verdict of valid returns the clamped style score. -/
theorem c4_invalid_code_overrides_style (env : Env) (ds1 ds2 sol gt : List Char)
    (ex : ExtraInfo) (ans : List Char)
    (h1 : endsWithL ds1 (("reward_loops").data) = true)
    (h2 : containsL ds1 memC = false)
    (h3 : endsWithL ds2 (("reward_loops_shown").data) = true)
    (h4 : containsL ds2 memC = false)
    (hx : extract_answer sol ansOpenC ansCloseC = some ans) :
    (env.sandbox ans = some false → reward_loops env ds1 sol gt ex = .num (-5)) ∧
    (env.sandbox ans = some true →
      reward_loops env ds1 sol gt ex
        = .num (clampQ (-5 + (count_loops env.parse ans : ℚ) * 3
            - (count_comprehensions env.parse ans : ℚ) * 3
            - (findAllCount mapFilterRe ans : ℚ) * 3))) ∧
    (env.sandbox ans = some false → reward_loops_shown env ds2 sol gt ex = .num (-5)) ∧
    (env.sandbox ans = some true →
      reward_loops_shown env ds2 sol gt ex
        = .num (clampQ ((if 0 < countExplicitLoops ans then 2 else 0)
            + (countExplicitLoops ans : ℚ) * (7/10)
            - (if 0 < findAllCount listCompShownRe ans + findAllCount dictCompShownRe ans
                  + findAllCount genExpShownRe ans then 3 else 0)
            - ((findAllCount listCompShownRe ans + findAllCount dictCompShownRe ans
                  + findAllCount genExpShownRe ans : ℚ)) * (3/2)
            - loopsFunctionalPenalty ans))) := by
  refine ⟨?_, ?_, ?_, ?_⟩ <;> intro hs <;>
    simp [reward_loops, reward_loops_shown, safe_validate_code,
      safe_validate_code_shown, h1, h2, h3, h4, hx, hs]

/-- C4 witness, the spec's scenario: completion
`<think>ok</think><answer>for i in range(3): pass</answer>` on the loops
descriptors — with a sandbox reporting invalid the score is the floor, with
a sandbox reporting valid it is the clamped style score. -/
theorem c4_invalid_code_overrides_style_witness :
    extract_answer
        (("<think>ok</think><answer>for i in range(3): pass</answer>").data)
        ansOpenC ansCloseC = some (("for i in range(3): pass").data) ∧
      reward_loops envFalse (("reward_loops").data)
          (("<think>ok</think><answer>for i in range(3): pass</answer>").data)
          [] exEmpty = .num (-5) ∧
      reward_loops envTrue (("reward_loops").data)
          (("<think>ok</think><answer>for i in range(3): pass</answer>").data)
          [] exEmpty
        = .num (clampQ (-5
            + (count_loops envTrue.parse (("for i in range(3): pass").data) : ℚ) * 3
            - (count_comprehensions envTrue.parse
                (("for i in range(3): pass").data) : ℚ) * 3
            - (findAllCount mapFilterRe (("for i in range(3): pass").data) : ℚ) * 3)) ∧
      reward_loops_shown envFalse (("reward_loops_shown").data)
          (("<think>ok</think><answer>for i in range(3): pass</answer>").data)
          [] exEmpty = .num (-5) ∧
      reward_loops_shown envTrue (("reward_loops_shown").data)
          (("<think>ok</think><answer>for i in range(3): pass</answer>").data)
          [] exEmpty
        = .num (clampQ ((if 0 < countExplicitLoops (("for i in range(3): pass").data)
              then 2 else 0)
            + (countExplicitLoops (("for i in range(3): pass").data) : ℚ) * (7/10)
            - (if 0 < findAllCount listCompShownRe (("for i in range(3): pass").data)
                  + findAllCount dictCompShownRe (("for i in range(3): pass").data)
                  + findAllCount genExpShownRe (("for i in range(3): pass").data)
               then 3 else 0)
            - ((findAllCount listCompShownRe (("for i in range(3): pass").data)
                  + findAllCount dictCompShownRe (("for i in range(3): pass").data)
                  + findAllCount genExpShownRe (("for i in range(3): pass").data) : ℚ))
                * (3/2)
            - loopsFunctionalPenalty (("for i in range(3): pass").data))) := by
  have hx : extract_answer
      (("<think>ok</think><answer>for i in range(3): pass</answer>").data)
      ansOpenC ansCloseC = some (("for i in range(3): pass").data) := by decide
  refine ⟨hx, ?_, ?_, ?_, ?_⟩
  · exact (c4_invalid_code_overrides_style envFalse (("reward_loops").data)
      (("reward_loops_shown").data) _ [] exEmpty _ (by decide) (by decide) (by decide)
      (by decide) hx).1 rfl
  · exact (c4_invalid_code_overrides_style envTrue (("reward_loops").data)
      (("reward_loops_shown").data) _ [] exEmpty _ (by decide) (by decide) (by decide)
      (by decide) hx).2.1 rfl
  · exact (c4_invalid_code_overrides_style envFalse (("reward_loops").data)
      (("reward_loops_shown").data) _ [] exEmpty _ (by decide) (by decide) (by decide)
      (by decide) hx).2.2.1 rfl
  · exact (c4_invalid_code_overrides_style envTrue (("reward_loops").data)
      (("reward_loops_shown").data) _ [] exEmpty _ (by decide) (by decide) (by decide)
      (by decide) hx).2.2.2 rfl

end RewardSpec
